import Mathlib

/-!
Shallow embedding of the DCGM health-watch engine (`DcgmHealthWatch.cpp`,
given as `src/unnamed/part_000`).  The external collaborators (core proxy /
sample store) are modelled as a record of response functions; the engine's
mutable state (group watch table, uncontained-error set) is threaded
explicitly.  Machine `long long` values are modelled as `Int` (no arithmetic
in the engine can overflow 64 bits for the inputs considered), C `double`
values as `ℚ` (the engine only adds, halves, divides and compares them;
exact rational arithmetic agrees with IEEE semantics on all windows with
positive elapsed time, which the theorems assume where division occurs).
The wall clock (`timelib_usecSince1970`) is passed in as an explicit `now`
parameter.  Numeric constants that live in DCGM public headers outside this
repository's sources (field ids, health bits, limits) are reproduced below;
the engine's logic depends only on their identity/ordering, not their values.
-/

namespace Dcgm

/-- `dcgmReturn_t` status codes used by the health-watch engine.  All other
DCGM error codes are collapsed into `err` with a numeric payload. -/
inductive dcgmReturn where
  | ok
  | noData
  | notWatched
  | badParam
  | err (code : Nat)
deriving DecidableEq, Repr

/-- `dcgm_field_entity_group_t`: the entity classes the engine dispatches on. -/
inductive EntityGroup where
  | none
  | gpu
  | vgpu
  | nvswitch
  | gpuI
  | gpuCI
  | link
  | cpu
deriving DecidableEq, Repr

/-- `dcgmGroupEntityPair_t`. -/
structure Entity where
  entityGroupId : EntityGroup
  entityId : Nat
deriving DecidableEq, Repr

/-- Sample query order (`DCGM_ORDER_ASCENDING` / `DCGM_ORDER_DESCENDING`). -/
inductive SampleOrder where
  | ascending
  | descending
deriving DecidableEq, Repr

/-- NvLink link state (`dcgmNvLinkLinkState_t`); the engine only tests
for `down`. -/
inductive LinkState where
  | notSupported
  | disabled
  | down
  | up
deriving DecidableEq, Repr

/-- `dcgmHealthWatchResults_t`. -/
inductive HealthResult where
  | pass
  | warn
  | fail
deriving DecidableEq, Repr

/-- The `DCGM_FR_*` error codes the engine formats into incidents.  Message
text is irrelevant to the verified properties; the link index embedded in
link-down and switch messages is kept as a payload. -/
inductive ErrCode where
  | pciReplayRate
  | volatileDbeDetected
  | pendingPageRetirements
  | retiredPagesLimit
  | retiredPagesDbeLimit
  | rowRemapFailure
  | uncontainedError
  | corruptInforom
  | clockThrottleThermal
  | clockThrottlePower
  | fieldThresholdDbl
  | nvlinkErrorCritical
  | nvlinkCrcErrorThreshold
  | nvlinkErrorThreshold
  | nvlinkDown (linkId : Nat)
  | nvswitchFatalError (linkId : Nat)
  | nvswitchNonFatalError (linkId : Nat)
  | powerUnreadable
deriving DecidableEq, Repr

/-- One detected incident, as appended to the caller's response by
`DcgmHealthWatch::SetResponse` / `DcgmHealthResponse::AddIncident`. -/
structure Incident where
  system : Nat
  health : HealthResult
  code : ErrCode
  entityGroupId : EntityGroup
  entityId : Nat
deriving DecidableEq, Repr

/-- A `dcgmcm_sample_t` payload: the C union `val { i64; d }` is modelled as
a pair.  A zero-initialised sample (`= {}`) is `⟨0, 0⟩`. -/
structure SampleVal where
  i64 : Int
  d : ℚ
deriving DecidableEq, Repr

/-- Outcome of one cache/sample-store query: `ok` carries the value written
into the caller's buffer; on `noData`/`notWatched`/`err` the buffer is left
untouched (zero-initialised by every caller in this file). -/
inductive SampleResult where
  | ok (v : SampleVal)
  | noData
  | notWatched
  | err (code : Nat)
deriving DecidableEq, Repr

/-- The status code of a query outcome. -/
def sampleStatus : SampleResult → dcgmReturn
  | .ok _ => .ok
  | .noData => .noData
  | .notWatched => .notWatched
  | .err c => .err c

/-- Contents of the caller's zero-initialised sample buffer after a query:
the returned value on success, untouched zeros otherwise. -/
def bufVal : SampleResult → SampleVal
  | .ok v => v
  | _ => ⟨0, 0⟩

/-! ### Constants from the DCGM public headers (not part of src/) -/

/-- `DCGM_INT64_BLANK`: base of the int64 sentinel ("blank") range. -/
def DCGM_INT64_BLANK : Int := 0x7ffffffffffffff0

/-- `DCGM_INT64_NOT_SUPPORTED`. -/
def DCGM_INT64_NOT_SUPPORTED : Int := DCGM_INT64_BLANK + 2

/-- `DCGM_INT64_IS_BLANK(val)` ⇔ `val ≥ DCGM_INT64_BLANK`. -/
def int64IsBlank (v : Int) : Bool := DCGM_INT64_BLANK ≤ v

/-- `DCGM_FP64_BLANK`. -/
def DCGM_FP64_BLANK : ℚ := 140737488355328

/-- `DCGM_FP64_NOT_SUPPORTED`. -/
def DCGM_FP64_NOT_SUPPORTED : ℚ := DCGM_FP64_BLANK + 2

/-- `DCGM_FP64_IS_BLANK(val)` ⇔ `val ≥ DCGM_FP64_BLANK`. -/
def fp64IsBlank (v : ℚ) : Bool := DCGM_FP64_BLANK ≤ v

/-- Health-system bits (`dcgmHealthSystems_t`). -/
def DCGM_HEALTH_WATCH_PCIE : Nat := 1
def DCGM_HEALTH_WATCH_NVLINK : Nat := 2
def DCGM_HEALTH_WATCH_PMU : Nat := 4
def DCGM_HEALTH_WATCH_MCU : Nat := 8
def DCGM_HEALTH_WATCH_MEM : Nat := 16
def DCGM_HEALTH_WATCH_SM : Nat := 32
def DCGM_HEALTH_WATCH_INFOROM : Nat := 64
def DCGM_HEALTH_WATCH_THERMAL : Nat := 128
def DCGM_HEALTH_WATCH_POWER : Nat := 256
def DCGM_HEALTH_WATCH_DRIVER : Nat := 512
def DCGM_HEALTH_WATCH_NVSWITCH_NONFATAL : Nat := 1024
def DCGM_HEALTH_WATCH_NVSWITCH_FATAL : Nat := 2048

/-- Number of health bits in the version-1 / version-2 APIs. -/
def DCGM_HEALTH_WATCH_COUNT_V1 : Nat := 10
def DCGM_HEALTH_WATCH_COUNT_V2 : Nat := 12

def DCGM_MAX_NUM_DEVICES : Nat := 32
def DCGM_NVLINK_MAX_LINKS_PER_GPU : Nat := 18
def DCGM_NVLINK_MAX_LINKS_PER_NVSWITCH : Nat := 64

/-- Field identifiers (`DCGM_FI_DEV_*`); only their identity matters. -/
def DCGM_FI_DEV_PCIE_REPLAY_COUNTER : Nat := 235
def DCGM_FI_DEV_ECC_DBE_VOL_TOTAL : Nat := 313
def DCGM_FI_DEV_RETIRED_SBE : Nat := 390
def DCGM_FI_DEV_RETIRED_DBE : Nat := 391
def DCGM_FI_DEV_RETIRED_PENDING : Nat := 392
def DCGM_FI_DEV_XID_ERRORS : Nat := 230
def DCGM_FI_DEV_ROW_REMAP_FAILURE : Nat := 395
def DCGM_FI_DEV_INFOROM_CONFIG_VALID : Nat := 186
def DCGM_FI_DEV_THERMAL_VIOLATION : Nat := 241
def DCGM_FI_DEV_POWER_VIOLATION : Nat := 240
def DCGM_FI_DEV_POWER_USAGE : Nat := 155
def DCGM_FI_DEV_NVLINK_CRC_FLIT_ERROR_COUNT_TOTAL : Nat := 409
def DCGM_FI_DEV_NVLINK_CRC_DATA_ERROR_COUNT_TOTAL : Nat := 419
def DCGM_FI_DEV_NVLINK_REPLAY_ERROR_COUNT_TOTAL : Nat := 429
def DCGM_FI_DEV_NVLINK_RECOVERY_ERROR_COUNT_TOTAL : Nat := 439
def DCGM_FI_DEV_NVSWITCH_NON_FATAL_ERRORS : Nat := 856
def DCGM_FI_DEV_NVSWITCH_FATAL_ERRORS : Nat := 857
def DCGM_FI_DEV_CPU_TEMP_CURRENT : Nat := 1113
def DCGM_FI_DEV_CPU_TEMP_WARNING : Nat := 1114
def DCGM_FI_DEV_CPU_TEMP_CRITICAL : Nat := 1115
def DCGM_FI_DEV_CPU_POWER_UTIL_CURRENT : Nat := 1120
def DCGM_FI_DEV_CPU_POWER_LIMIT : Nat := 1121

/-- Fixed health limits (`dcgm_health` internal header, not in src/). -/
def DCGM_LIMIT_MAX_PCIREPLAY_RATE : Int := 8
def DCGM_LIMIT_MAX_RETIRED_PAGES : Int := 60
def DCGM_LIMIT_MAX_RETIRED_PAGES_SOFT_LIMIT : Int := 15
def DCGM_LIMIT_MAX_NVLINK_ERROR : Int := 1
def DCGM_LIMIT_MAX_NVLINK_CRC_ERROR : ℚ := 100

/-- `DCGM_HEALTH_WATCH_NVLINK_ERROR_NUM_FIELDS` = 4, as the ordered list of
monitored NVLink error counters (`fieldIds[0..3]` in `MonitorNVLink`). -/
def nvlinkFieldIds : List Nat :=
  [DCGM_FI_DEV_NVLINK_CRC_FLIT_ERROR_COUNT_TOTAL,
   DCGM_FI_DEV_NVLINK_CRC_DATA_ERROR_COUNT_TOTAL,
   DCGM_FI_DEV_NVLINK_REPLAY_ERROR_COUNT_TOTAL,
   DCGM_FI_DEV_NVLINK_RECOVERY_ERROR_COUNT_TOTAL]

/-- `m_nvSwitchNonFatalFieldIds`, as built by `BuildFieldLists`. -/
def nvSwitchNonFatalFieldIds : List Nat := [DCGM_FI_DEV_NVSWITCH_NON_FATAL_ERRORS]

/-- `m_nvSwitchFatalFieldIds`, as built by `BuildFieldLists`. -/
def nvSwitchFatalFieldIds : List Nat := [DCGM_FI_DEV_NVSWITCH_FATAL_ERRORS]

/-! ### External collaborators (the core proxy) -/

/-- The `mpCoreProxy` surface the engine consumes.  `getGroupEntities`
returns a status and the member list; `addFieldWatch` is
`AddFieldWatch(entityGroupId, entityId, fieldId, updateInterval, maxKeepAge,
…, subscribeForUpdates, …)`; `getSamples` is a single-row window query
`(egid, eid, fieldId, start, end, order)`; `getNvLinkLinkStatus` returns a
status and the fixed-size per-link state array (as a function of link
index). -/
structure Proxy where
  getGroupEntities : Nat → dcgmReturn × List Entity
  addFieldWatch : EntityGroup → Nat → Nat → Int → ℚ → Bool → dcgmReturn
  updateAllFields : dcgmReturn
  getSamples : EntityGroup → Nat → Nat → Int → Int → SampleOrder → SampleResult
  getLatestSample : EntityGroup → Nat → Nat → SampleResult
  getNvLinkLinkStatus : EntityGroup → Nat → dcgmReturn × (Nat → LinkState)

/-! ### Engine state -/

/-- The mutex-guarded mutable state of `DcgmHealthWatch`:
`mGroupWatchState` (association list, first match wins, overwrite-on-set)
and `m_gpuHadUncontainedErrorXid`. -/
structure HWState where
  groupWatch : List (Nat × Nat)
  uncontained : Finset Nat
deriving DecidableEq

/-- The empty engine state (constructor: `mGroupWatchState.clear()`). -/
def initState : HWState := ⟨[], ∅⟩

/-- Lookup in the group-watch table. -/
def lookupMask : List (Nat × Nat) → Nat → Option Nat
  | [], _ => Option.none
  | kv :: rest, k => if kv.1 = k then some kv.2 else lookupMask rest k

/-- Overwrite-or-insert in the group-watch table
(`mGroupWatchState[groupId] = systems`). -/
def storeMask (l : List (Nat × Nat)) (k v : Nat) : List (Nat × Nat) :=
  (k, v) :: l.filter (fun kv => kv.1 ≠ k)

/-- `FitsGpuHardwareCheck`. -/
def fitsGpuHardwareCheck : EntityGroup → Bool
  | .gpu => true
  | .gpuI => true
  | .gpuCI => true
  | _ => false

/-! ### Watch installers (`Set*` functions) -/

/-- `SetPcie`: subscribe the PCIe replay counter (disable is a no-op). -/
def setPcie (p : Proxy) (egid : EntityGroup) (eid : Nat) (enable : Bool)
    (updateInterval : Int) (maxKeepAge : ℚ) : dcgmReturn :=
  if !enable then .ok
  else p.addFieldWatch egid eid DCGM_FI_DEV_PCIE_REPLAY_COUNTER updateInterval maxKeepAge false

/-- `SetMem`: volatile-DBE at the caller interval, then retired pages /
XID (subscribed) / row-remap at a 30 s floor; abort on first failure. -/
def setMem (p : Proxy) (egid : EntityGroup) (eid : Nat) (enable : Bool)
    (updateInterval : Int) (maxKeepAge : ℚ) : dcgmReturn :=
  if !enable then .ok
  else
    match p.addFieldWatch egid eid DCGM_FI_DEV_ECC_DBE_VOL_TOTAL updateInterval maxKeepAge false with
    | .ok =>
      let iv := max 30000000 updateInterval
      match p.addFieldWatch egid eid DCGM_FI_DEV_RETIRED_SBE iv maxKeepAge false with
      | .ok =>
        match p.addFieldWatch egid eid DCGM_FI_DEV_RETIRED_DBE iv maxKeepAge false with
        | .ok =>
          match p.addFieldWatch egid eid DCGM_FI_DEV_RETIRED_PENDING iv maxKeepAge false with
          | .ok =>
            match p.addFieldWatch egid eid DCGM_FI_DEV_XID_ERRORS iv maxKeepAge true with
            | .ok => p.addFieldWatch egid eid DCGM_FI_DEV_ROW_REMAP_FAILURE iv maxKeepAge false
            | r => r
          | r => r
        | r => r
      | r => r
    | r => r

/-- `SetInforom`: 1 h interval floor, 2 h retention floor. -/
def setInforom (p : Proxy) (egid : EntityGroup) (eid : Nat) (enable : Bool)
    (updateInterval : Int) (maxKeepAge : ℚ) : dcgmReturn :=
  if !enable then .ok
  else
    p.addFieldWatch egid eid DCGM_FI_DEV_INFOROM_CONFIG_VALID
      (max 3600000000 updateInterval) (max 7200 maxKeepAge) false

/-- `SetThermal`: 30 s interval floor. -/
def setThermal (p : Proxy) (egid : EntityGroup) (eid : Nat) (enable : Bool)
    (updateInterval : Int) (maxKeepAge : ℚ) : dcgmReturn :=
  if !enable then .ok
  else
    p.addFieldWatch egid eid DCGM_FI_DEV_THERMAL_VIOLATION
      (max 30000000 updateInterval) maxKeepAge false

/-- `SetPower`: power-violation then power-usage, 30 s floor, abort on
first failure. -/
def setPower (p : Proxy) (egid : EntityGroup) (eid : Nat) (enable : Bool)
    (updateInterval : Int) (maxKeepAge : ℚ) : dcgmReturn :=
  if !enable then .ok
  else
    let iv := max 30000000 updateInterval
    match p.addFieldWatch egid eid DCGM_FI_DEV_POWER_VIOLATION iv maxKeepAge false with
    | .ok => p.addFieldWatch egid eid DCGM_FI_DEV_POWER_USAGE iv maxKeepAge false
    | r => r

/-- `SetCpuThermal`: the three CPU temperature fields, 30 s floor. -/
def setCpuThermal (p : Proxy) (egid : EntityGroup) (eid : Nat) (enable : Bool)
    (updateInterval : Int) (maxKeepAge : ℚ) : dcgmReturn :=
  if !enable then .ok
  else
    let iv := max 30000000 updateInterval
    match p.addFieldWatch egid eid DCGM_FI_DEV_CPU_TEMP_CURRENT iv maxKeepAge false with
    | .ok =>
      match p.addFieldWatch egid eid DCGM_FI_DEV_CPU_TEMP_WARNING iv maxKeepAge false with
      | .ok => p.addFieldWatch egid eid DCGM_FI_DEV_CPU_TEMP_CRITICAL iv maxKeepAge false
      | r => r
    | r => r

/-- `SetCpuPower`: utilization and limit, 30 s floor. -/
def setCpuPower (p : Proxy) (egid : EntityGroup) (eid : Nat) (enable : Bool)
    (updateInterval : Int) (maxKeepAge : ℚ) : dcgmReturn :=
  if !enable then .ok
  else
    let iv := max 30000000 updateInterval
    match p.addFieldWatch egid eid DCGM_FI_DEV_CPU_POWER_UTIL_CURRENT iv maxKeepAge false with
    | .ok => p.addFieldWatch egid eid DCGM_FI_DEV_CPU_POWER_LIMIT iv maxKeepAge false
    | r => r

/-- `SetNVLink`: the four NVLink error counters at the caller interval. -/
def setNVLink (p : Proxy) (egid : EntityGroup) (eid : Nat) (enable : Bool)
    (updateInterval : Int) (maxKeepAge : ℚ) : dcgmReturn :=
  if !enable then .ok
  else
    match p.addFieldWatch egid eid DCGM_FI_DEV_NVLINK_CRC_FLIT_ERROR_COUNT_TOTAL updateInterval maxKeepAge false with
    | .ok =>
      match p.addFieldWatch egid eid DCGM_FI_DEV_NVLINK_CRC_DATA_ERROR_COUNT_TOTAL updateInterval maxKeepAge false with
      | .ok =>
        match p.addFieldWatch egid eid DCGM_FI_DEV_NVLINK_REPLAY_ERROR_COUNT_TOTAL updateInterval maxKeepAge false with
        | .ok => p.addFieldWatch egid eid DCGM_FI_DEV_NVLINK_RECOVERY_ERROR_COUNT_TOTAL updateInterval maxKeepAge false
        | r => r
      | r => r
    | r => r

/-- `SetNvSwitchWatches`: per accumulated switch id, subscribe the
non-fatal then fatal field lists when the matching bit is set, aborting on
the first failure. -/
def setNvSwitchWatchesFields (p : Proxy) (eid : Nat) (updateInterval : Int) (maxKeepAge : ℚ) :
    List Nat → dcgmReturn
  | [] => .ok
  | f :: rest =>
    match p.addFieldWatch .nvswitch eid f updateInterval maxKeepAge false with
    | .ok => setNvSwitchWatchesFields p eid updateInterval maxKeepAge rest
    | r => r

def setNvSwitchWatches (p : Proxy) (ids : List Nat) (systems : Nat)
    (updateInterval : Int) (maxKeepAge : ℚ) : dcgmReturn :=
  match ids with
  | [] => .ok
  | eid :: rest =>
    let r1 :=
      if systems &&& DCGM_HEALTH_WATCH_NVSWITCH_NONFATAL ≠ 0 then
        setNvSwitchWatchesFields p eid updateInterval maxKeepAge nvSwitchNonFatalFieldIds
      else .ok
    if r1 ≠ .ok then r1
    else
      let r2 :=
        if systems &&& DCGM_HEALTH_WATCH_NVSWITCH_FATAL ≠ 0 then
          setNvSwitchWatchesFields p eid updateInterval maxKeepAge nvSwitchFatalFieldIds
        else .ok
      if r2 ≠ .ok then r2
      else setNvSwitchWatches p rest systems updateInterval maxKeepAge

/-! ### `SetWatches` / `GetWatches` (entity router) -/

/-- One iteration of the per-bit installer dispatch for a device-class
entity inside `SetWatches`; unrecognised bits leave `tmpRet` untouched. -/
def setWatchesGpuBit (p : Proxy) (egid : EntityGroup) (eid : Nat) (systems : Nat)
    (updateInterval : Int) (maxKeepAge : ℚ) (tmpRet : dcgmReturn) (i : Nat) : dcgmReturn :=
  let bit := 2 ^ i
  let enable := bit &&& systems ≠ 0
  if bit = DCGM_HEALTH_WATCH_PCIE then setPcie p egid eid enable updateInterval maxKeepAge
  else if bit = DCGM_HEALTH_WATCH_MEM then setMem p egid eid enable updateInterval maxKeepAge
  else if bit = DCGM_HEALTH_WATCH_INFOROM then setInforom p egid eid enable updateInterval maxKeepAge
  else if bit = DCGM_HEALTH_WATCH_THERMAL then setThermal p egid eid enable updateInterval maxKeepAge
  else if bit = DCGM_HEALTH_WATCH_POWER then setPower p egid eid enable updateInterval maxKeepAge
  else if bit = DCGM_HEALTH_WATCH_NVLINK then setNVLink p egid eid enable updateInterval maxKeepAge
  else tmpRet

/-- One iteration of the per-bit installer dispatch for a CPU entity:
only the Thermal and Power bits are recognised. -/
def setWatchesCpuBit (p : Proxy) (egid : EntityGroup) (eid : Nat) (systems : Nat)
    (updateInterval : Int) (maxKeepAge : ℚ) (tmpRet : dcgmReturn) (i : Nat) : dcgmReturn :=
  let bit := 2 ^ i
  let enable := bit &&& systems ≠ 0
  if bit = DCGM_HEALTH_WATCH_THERMAL then setCpuThermal p egid eid enable updateInterval maxKeepAge
  else if bit = DCGM_HEALTH_WATCH_POWER then setCpuPower p egid eid enable updateInterval maxKeepAge
  else tmpRet

/-- The inner bit loop of `SetWatches`: runs `step` on each bit index and
breaks out (returning the current `tmpRet`) as soon as it is non-OK. -/
def setWatchesBitLoop (step : dcgmReturn → Nat → dcgmReturn) :
    List Nat → dcgmReturn → dcgmReturn
  | [], t => t
  | i :: rest, t =>
    let t' := step t i
    if t' ≠ .ok then t' else setWatchesBitLoop step rest t'

/-- One entity of the `SetWatches` entity loop: device-class entities run
the per-bit installer loop (threading `tmpRet`), switch entities are only
accumulated, CPU entities run the CPU bit loop, anything else is a no-op. -/
def setWatchesEntityStep (p : Proxy) (systems : Nat) (updateInterval : Int) (maxKeepAge : ℚ)
    (a : dcgmReturn × List Nat) (ent : Entity) : dcgmReturn × List Nat :=
  match ent.entityGroupId with
  | .gpu | .gpuI | .gpuCI =>
    (setWatchesBitLoop (setWatchesGpuBit p ent.entityGroupId ent.entityId systems updateInterval maxKeepAge)
      (List.range DCGM_HEALTH_WATCH_COUNT_V2) a.1, a.2)
  | .nvswitch => (a.1, a.2 ++ [ent.entityId])
  | .cpu =>
    (setWatchesBitLoop (setWatchesCpuBit p ent.entityGroupId ent.entityId systems updateInterval maxKeepAge)
      (List.range DCGM_HEALTH_WATCH_COUNT_V2) a.1, a.2)
  | _ => a

/-- The entity loop of `SetWatches`: threads `tmpRet` across entities
(its value is never copied into the function's `ret`) and accumulates
switch entity ids. -/
def setWatchesEntityFold (p : Proxy) (systems : Nat) (updateInterval : Int) (maxKeepAge : ℚ)
    (ents : List Entity) : dcgmReturn × List Nat :=
  ents.foldl (setWatchesEntityStep p systems updateInterval maxKeepAge) (.ok, [])

/-- `DcgmHealthWatch::SetWatches`: resolve the group, store the mask,
run the per-entity installers, install switch watches for the accumulated
switch ids, then force a field refresh.  Returns the status / new state. -/
def setWatches (p : Proxy) (st : HWState) (groupId systems : Nat)
    (updateInterval : Int) (maxKeepAge : ℚ) : dcgmReturn × HWState :=
  match p.getGroupEntities groupId with
  | (.ok, entities) =>
    let st' : HWState := { st with groupWatch := storeMask st.groupWatch groupId systems }
    let acc := setWatchesEntityFold p systems updateInterval maxKeepAge entities
    let ret1 : dcgmReturn :=
      if acc.2 ≠ [] then setNvSwitchWatches p acc.2 systems updateInterval maxKeepAge else .ok
    let ret2 : dcgmReturn :=
      match p.updateAllFields with
      | .ok => ret1
      | r => r
    (ret2, st')
  | (r, _) => (r, st)

/-- `DcgmHealthWatch::GetWatches`: resolve the group (validating it), then
return the stored mask or the zero sentinel. -/
def getWatches (p : Proxy) (st : HWState) (groupId : Nat) : dcgmReturn × Nat :=
  match p.getGroupEntities groupId with
  | (.ok, _) => (.ok, (lookupMask st.groupWatch groupId).getD 0)
  | (r, _) => (r, 0)

/-- `DcgmHealthWatch::OnGroupRemove`. -/
def onGroupRemove (st : HWState) (groupId : Nat) : HWState :=
  { st with groupWatch := st.groupWatch.filter (fun kv => kv.1 ≠ groupId) }

/-! ### Monitor evaluators -/

/-- The blank/zero start-time default shared by the windowed evaluators:
`if (!startTime) startTime = now - oneMinuteInUsec;`. -/
def effStart (startTime now : Int) : Int :=
  if startTime = 0 then now - 60000000 else startTime

/-- C++ narrowing of an `int64` value to a signed 32-bit `int`
(two's-complement wrap-around), as performed by the declaration
`int pciReplayRate = ...` in `MonitorPcie`. -/
def toInt32 (x : Int) : Int := (x + 2 ^ 31) % 2 ^ 32 - 2 ^ 31

/-- `DcgmHealthWatch::MonitorPcie`: earliest/latest replay-counter samples
in the window; absence or blank at either end passes; the delta is
narrowed to a 32-bit `int` (`int pciReplayRate`) and a narrowed delta
strictly above the fixed limit raises one WARN. -/
def monitorPcie (p : Proxy) (egid : EntityGroup) (eid : Nat)
    (startTime endTime now : Int) : dcgmReturn × List Incident :=
  let fieldId := DCGM_FI_DEV_PCIE_REPLAY_COUNTER
  let s := effStart startTime now
  match p.getSamples egid eid fieldId s endTime .ascending with
  | .noData => (.ok, [])
  | .notWatched => (.ok, [])
  | .err c => (.err c, [])
  | .ok sv =>
    if int64IsBlank sv.i64 then (.ok, [])
    else
      match p.getSamples egid eid fieldId s endTime .descending with
      | .noData => (.ok, [])
      | .notWatched => (.ok, [])
      | .err c => (.err c, [])
      | .ok ev =>
        if int64IsBlank ev.i64 then (.ok, [])
        else
          let pciReplayRate :=
            toInt32 (if sv.i64 ≥ ev.i64 then sv.i64 - ev.i64 else ev.i64 - sv.i64)
          if pciReplayRate > DCGM_LIMIT_MAX_PCIREPLAY_RATE then
            (.ok, [⟨DCGM_HEALTH_WATCH_PCIE, .warn, .pciReplayRate, egid, eid⟩])
          else (.ok, [])

/-- `MonitorMemVolatileDbes`: latest volatile-DBE count; blank passes,
any positive count is a FAIL. -/
def monitorMemVolatileDbes (p : Proxy) (egid : EntityGroup) (eid : Nat)
    (startTime endTime : Int) : dcgmReturn × List Incident :=
  match p.getSamples egid eid DCGM_FI_DEV_ECC_DBE_VOL_TOTAL startTime endTime .descending with
  | .err c => (.err c, [])
  | r =>
    let v := (bufVal r).i64
    if int64IsBlank v then (.ok, [])
    else if v > 0 then (.ok, [⟨DCGM_HEALTH_WATCH_MEM, .fail, .volatileDbeDetected, egid, eid⟩])
    else (.ok, [])

/-- `MonitorMemRetiredPending`: latest retired-pending count; present and
nonzero is a WARN. -/
def monitorMemRetiredPending (p : Proxy) (egid : EntityGroup) (eid : Nat)
    (startTime endTime : Int) : dcgmReturn × List Incident :=
  match p.getSamples egid eid DCGM_FI_DEV_RETIRED_PENDING startTime endTime .descending with
  | .err c => (.err c, [])
  | r =>
    let v := (bufVal r).i64
    if ¬ int64IsBlank v ∧ v ≠ 0 then
      (.ok, [⟨DCGM_HEALTH_WATCH_MEM, .warn, .pendingPageRetirements, egid, eid⟩])
    else (.ok, [])

/-- `MonitorMemSbeDbeRetiredPages`: the retired-page cap rule (sum of the
non-blank SBE/DBE counts against the hard limit — note the cap path
returns the current `ret`, i.e. the status of the preceding SBE fetch)
followed by the weekly DBE rate rule past the soft limit. -/
def monitorMemSbeDbeRetiredPages (p : Proxy) (egid : EntityGroup) (eid : Nat)
    (startTime endTime now : Int) : dcgmReturn × List Incident :=
  match p.getSamples egid eid DCGM_FI_DEV_RETIRED_DBE startTime endTime .descending with
  | .err c => (.err c, [])
  | rdbe =>
    match p.getSamples egid eid DCGM_FI_DEV_RETIRED_SBE startTime endTime .descending with
    | .err c => (.err c, [])
    | rsbe =>
      let dbe := (bufVal rdbe).i64
      let sbe := (bufVal rsbe).i64
      let totalRetiredPages :=
        (if int64IsBlank sbe then 0 else sbe) + (if int64IsBlank dbe then 0 else dbe)
      if totalRetiredPages ≥ DCGM_LIMIT_MAX_RETIRED_PAGES then
        (sampleStatus rsbe, [⟨DCGM_HEALTH_WATCH_MEM, .fail, .retiredPagesLimit, egid, eid⟩])
      else if ¬ int64IsBlank dbe ∧ dbe > DCGM_LIMIT_MAX_RETIRED_PAGES_SOFT_LIMIT then
        match p.getSamples egid eid DCGM_FI_DEV_RETIRED_DBE 0 (now - 604800000000) .descending with
        | .err c => (sampleStatus rsbe, [])
        | .notWatched => (sampleStatus rsbe, [])
        | rweek =>
          let w := (bufVal rweek).i64
          if int64IsBlank w then (.ok, [])
          else if dbe - w > 1 then
            (.ok, [⟨DCGM_HEALTH_WATCH_MEM, .fail, .retiredPagesDbeLimit, egid, eid⟩])
          else (.ok, [])
      else (.ok, [])

/-- `MonitorMemRowRemapFailures`: latest row-remap-failure count; blank
passes, any positive count is a FAIL. -/
def monitorMemRowRemapFailures (p : Proxy) (egid : EntityGroup) (eid : Nat)
    (startTime endTime : Int) : dcgmReturn × List Incident :=
  match p.getSamples egid eid DCGM_FI_DEV_ROW_REMAP_FAILURE startTime endTime .descending with
  | .err c => (.err c, [])
  | r =>
    let v := (bufVal r).i64
    if int64IsBlank v then (.ok, [])
    else if v > 0 then (.ok, [⟨DCGM_HEALTH_WATCH_MEM, .fail, .rowRemapFailure, egid, eid⟩])
    else (.ok, [])

/-- `MonitorUncontainedErrors`: consulted only for `DCGM_FE_GPU` entities;
membership in the uncontained-error set is one FAIL. -/
def monitorUncontainedErrors (st : HWState) (egid : EntityGroup) (eid : Nat) :
    dcgmReturn × List Incident :=
  if egid ≠ .gpu then (.ok, [])
  else if eid ∈ st.uncontained then
    (.ok, [⟨DCGM_HEALTH_WATCH_MEM, .fail, .uncontainedError, egid, eid⟩])
  else (.ok, [])

/-- `DcgmHealthWatch::MonitorMem`: the five memory sub-checks all run; the
overall status is the last non-success seen, incidents accumulate. -/
def monitorMem (st : HWState) (p : Proxy) (egid : EntityGroup) (eid : Nat)
    (startTime endTime now : Int) : dcgmReturn × List Incident :=
  let s := effStart startTime now
  let r1 := monitorMemVolatileDbes p egid eid s endTime
  let r2 := monitorMemRetiredPending p egid eid s endTime
  let r3 := monitorMemSbeDbeRetiredPages p egid eid s endTime now
  let r4 := monitorMemRowRemapFailures p egid eid s endTime
  let r5 := monitorUncontainedErrors st egid eid
  let ret := [r1.1, r2.1, r3.1, r4.1, r5.1].foldl (fun a r => if r ≠ .ok then r else a) .ok
  (ret, r1.2 ++ r2.2 ++ r3.2 ++ r4.2 ++ r5.2)

/-- `DcgmHealthWatch::MonitorInforom`: latest config-valid flag; absent or
blank passes, a false flag is a WARN.  (The function's blank start time is
set to 0 and never used; only the latest sample is consulted.) -/
def monitorInforom (p : Proxy) (egid : EntityGroup) (eid : Nat)
    (startTime endTime : Int) : dcgmReturn × List Incident :=
  match p.getLatestSample egid eid DCGM_FI_DEV_INFOROM_CONFIG_VALID with
  | .noData => (.ok, [])
  | .notWatched => (.ok, [])
  | .err c => (.err c, [])
  | .ok sv =>
    if int64IsBlank sv.i64 then (.ok, [])
    else if sv.i64 = 0 then
      (.ok, [⟨DCGM_HEALTH_WATCH_INFOROM, .warn, .corruptInforom, egid, eid⟩])
    else (.ok, [])

/-- `DcgmHealthWatch::MonitorThermal`: earliest windowed sample vs latest
sample of the thermal-violation counter; any nonzero delta is a WARN.
(Only a no-data status converts to success; not-watched propagates.) -/
def monitorThermal (p : Proxy) (egid : EntityGroup) (eid : Nat)
    (startTime endTime now : Int) : dcgmReturn × List Incident :=
  let fieldId := DCGM_FI_DEV_THERMAL_VIOLATION
  let s := effStart startTime now
  match p.getSamples egid eid fieldId s endTime .ascending with
  | .noData => (.ok, [])
  | .ok sv =>
    if int64IsBlank sv.i64 then (.ok, [])
    else
      match p.getLatestSample egid eid fieldId with
      | .noData => (.ok, [])
      | .ok ev =>
        if int64IsBlank ev.i64 then (.ok, [])
        else
          let violationTime := if sv.i64 ≥ ev.i64 then sv.i64 - ev.i64 else ev.i64 - sv.i64
          if violationTime ≠ 0 then
            (.ok, [⟨DCGM_HEALTH_WATCH_THERMAL, .warn, .clockThrottleThermal, egid, eid⟩])
          else (.ok, [])
      | r => (sampleStatus r, [])
  | r => (sampleStatus r, [])

/-- `DcgmHealthWatch::MonitorPower`: for GPU entities, a blank (but
supported) latest power reading is a WARN; then earliest/latest windowed
power-violation samples with any nonzero delta a WARN. -/
def monitorPower (p : Proxy) (egid : EntityGroup) (eid : Nat)
    (startTime endTime now : Int) : dcgmReturn × List Incident :=
  let fieldId := DCGM_FI_DEV_POWER_VIOLATION
  let inc0 : List Incident :=
    if egid = .gpu then
      match p.getLatestSample egid eid DCGM_FI_DEV_POWER_USAGE with
      | .ok sv =>
        if fp64IsBlank sv.d ∧ sv.d ≠ DCGM_FP64_NOT_SUPPORTED then
          [⟨DCGM_HEALTH_WATCH_POWER, .warn, .powerUnreadable, egid, eid⟩]
        else []
      | _ => []
    else []
  let s := effStart startTime now
  match p.getSamples egid eid fieldId s endTime .ascending with
  | .noData => (.ok, inc0)
  | .ok sv =>
    if int64IsBlank sv.i64 then (.ok, inc0)
    else
      match p.getSamples egid eid fieldId s endTime .descending with
      | .noData => (.ok, inc0)
      | .ok ev =>
        if int64IsBlank ev.i64 then (.ok, inc0)
        else
          let violationTime := if sv.i64 ≥ ev.i64 then sv.i64 - ev.i64 else ev.i64 - sv.i64
          if violationTime ≠ 0 then
            (.ok, inc0 ++ [⟨DCGM_HEALTH_WATCH_POWER, .warn, .clockThrottlePower, egid, eid⟩])
          else (.ok, inc0)
      | r => (sampleStatus r, inc0)
  | r => (sampleStatus r, inc0)

/-- `DcgmHealthWatch::MonitorCpuThermal`: the three aligned temperature
fields at window start and latest; any absent/blank sample passes; WARN
when the averaged current temperature reaches the warning threshold, FAIL
when the latest current reaches the critical threshold. -/
def monitorCpuThermal (p : Proxy) (egid : EntityGroup) (eid : Nat)
    (startTime endTime now : Int) : dcgmReturn × List Incident :=
  let s := effStart startTime now
  match p.getSamples egid eid DCGM_FI_DEV_CPU_TEMP_CURRENT s endTime .ascending with
  | .noData => (.ok, [])
  | .ok aCur =>
    if int64IsBlank aCur.i64 then (.ok, [])
    else
      match p.getSamples egid eid DCGM_FI_DEV_CPU_TEMP_WARNING s endTime .ascending with
      | .noData => (.ok, [])
      | .ok aWarn =>
        if int64IsBlank aWarn.i64 then (.ok, [])
        else
          match p.getSamples egid eid DCGM_FI_DEV_CPU_TEMP_CRITICAL s endTime .ascending with
          | .noData => (.ok, [])
          | .ok aCrit =>
            if int64IsBlank aCrit.i64 then (.ok, [])
            else
              match p.getLatestSample egid eid DCGM_FI_DEV_CPU_TEMP_CURRENT with
              | .noData => (.ok, [])
              | .ok eCur =>
                if int64IsBlank eCur.i64 then (.ok, [])
                else
                  match p.getLatestSample egid eid DCGM_FI_DEV_CPU_TEMP_WARNING with
                  | .noData => (.ok, [])
                  | .ok eWarn =>
                    if int64IsBlank eWarn.i64 then (.ok, [])
                    else
                      match p.getLatestSample egid eid DCGM_FI_DEV_CPU_TEMP_CRITICAL with
                      | .noData => (.ok, [])
                      | .ok eCrit =>
                        if int64IsBlank eCrit.i64 then (.ok, [])
                        else
                          let warnInc : List Incident :=
                            if (aCur.d + eCur.d) / 2 ≥ eWarn.d then
                              [⟨DCGM_HEALTH_WATCH_THERMAL, .warn, .fieldThresholdDbl, egid, eid⟩]
                            else []
                          let failInc : List Incident :=
                            if eCur.d ≥ eCrit.d then
                              [⟨DCGM_HEALTH_WATCH_THERMAL, .fail, .fieldThresholdDbl, egid, eid⟩]
                            else []
                          (.ok, warnInc ++ failInc)
                      | r => (sampleStatus r, [])
                  | r => (sampleStatus r, [])
              | r => (sampleStatus r, [])
          | r => (sampleStatus r, [])
      | r => (sampleStatus r, [])
  | r => (sampleStatus r, [])

/-- `DcgmHealthWatch::MonitorCpuPower`: latest utilization and limit;
either absent/blank passes; utilization at or over the limit is a FAIL. -/
def monitorCpuPower (p : Proxy) (egid : EntityGroup) (eid : Nat)
    (startTime endTime : Int) : dcgmReturn × List Incident :=
  match p.getLatestSample egid eid DCGM_FI_DEV_CPU_POWER_UTIL_CURRENT with
  | .noData => (.ok, [])
  | .ok cur =>
    if int64IsBlank cur.i64 then (.ok, [])
    else
      match p.getLatestSample egid eid DCGM_FI_DEV_CPU_POWER_LIMIT with
      | .noData => (.ok, [])
      | .ok lim =>
        if int64IsBlank lim.i64 then (.ok, [])
        else if cur.d ≥ lim.d then
          (.ok, [⟨DCGM_HEALTH_WATCH_POWER, .fail, .fieldThresholdDbl, egid, eid⟩])
        else (.ok, [])
      | r => (sampleStatus r, [])
  | r => (sampleStatus r, [])

/-- The CRC error rate: window delta divided by the elapsed seconds, where
a blank (zero) end time measures the window against `now`. -/
def crcRatePerSec (nvLinkError : Int) (s endTime now : Int) : ℚ :=
  let timeDiffInSec : ℚ :=
    (if endTime = 0 then ((now - s : Int) : ℚ) else ((endTime - s : Int) : ℚ)) / 1000000
  (nvLinkError : ℚ) / timeDiffInSec

/-- The incident raised for an NVLink counter whose window delta reached
the fixed limit: replay/recovery counters fail outright; CRC counters are
rated per second — at or above the CRC limit fail, below it warn with the
generic threshold message. -/
def nvlinkIncident (egid : EntityGroup) (eid fieldId : Nat) (nvLinkError : Int)
    (s endTime now : Int) : Incident :=
  if fieldId = DCGM_FI_DEV_NVLINK_REPLAY_ERROR_COUNT_TOTAL ∨
     fieldId = DCGM_FI_DEV_NVLINK_RECOVERY_ERROR_COUNT_TOTAL then
    ⟨DCGM_HEALTH_WATCH_NVLINK, .fail, .nvlinkErrorCritical, egid, eid⟩
  else
    let perSec : ℚ := crcRatePerSec nvLinkError s endTime now
    if perSec ≥ DCGM_LIMIT_MAX_NVLINK_CRC_ERROR then
      ⟨DCGM_HEALTH_WATCH_NVLINK, .fail, .nvlinkCrcErrorThreshold, egid, eid⟩
    else
      ⟨DCGM_HEALTH_WATCH_NVLINK, .warn, .nvlinkErrorThreshold, egid, eid⟩

/-- The counter loop of `MonitorNVLink`: skips a counter on no-data /
unsupported / blank at either end, aborts on upstream errors (`some r`),
and otherwise accumulates the threshold incidents. -/
def monitorNVLinkLoop (p : Proxy) (egid : EntityGroup) (eid : Nat)
    (s endTime now : Int) : List Nat → List Incident → Option dcgmReturn × List Incident
  | [], acc => (Option.none, acc)
  | fieldId :: rest, acc =>
    match p.getSamples egid eid fieldId s endTime .ascending with
    | .err c => (some (.err c), acc)
    | ra =>
      if sampleStatus ra = .noData ∨ (bufVal ra).i64 = DCGM_INT64_NOT_SUPPORTED ∨
         int64IsBlank (bufVal ra).i64 then
        monitorNVLinkLoop p egid eid s endTime now rest acc
      else
        match p.getSamples egid eid fieldId s endTime .descending with
        | .err c => (some (.err c), acc)
        | .notWatched => (some .notWatched, acc)
        | rb =>
          if sampleStatus rb = .noData ∨ int64IsBlank (bufVal rb).i64 then
            monitorNVLinkLoop p egid eid s endTime now rest acc
          else
            let a := (bufVal ra).i64
            let b := (bufVal rb).i64
            let nvLinkError := if a ≥ b then a - b else b - a
            if nvLinkError ≥ DCGM_LIMIT_MAX_NVLINK_ERROR then
              monitorNVLinkLoop p egid eid s endTime now rest
                (acc ++ [nvlinkIncident egid eid fieldId nvLinkError s endTime now])
            else monitorNVLinkLoop p egid eid s endTime now rest acc

/-- `DcgmHealthWatch::MonitorNVLink`: the four counters, then a FAIL per
link reported down by the fixed-size GPU link-status query. -/
def monitorNVLink (p : Proxy) (egid : EntityGroup) (eid : Nat)
    (startTime endTime now : Int) : dcgmReturn × List Incident :=
  let s := effStart startTime now
  match monitorNVLinkLoop p egid eid s endTime now nvlinkFieldIds [] with
  | (some r, acc) => (r, acc)
  | (Option.none, acc) =>
    match p.getNvLinkLinkStatus .gpu eid with
    | (.ok, linkStates) =>
      let downs := (List.range DCGM_NVLINK_MAX_LINKS_PER_GPU).filterMap
        (fun i =>
          if linkStates i = .down then
            some (⟨DCGM_HEALTH_WATCH_NVLINK, .fail, .nvlinkDown i, egid, eid⟩ : Incident)
          else Option.none)
      (.ok, acc ++ downs)
    | (r, _) => (r, acc)

/-- `DcgmHealthWatch::MonitorNvSwitchErrorCounts`: for each field of the
selected (fatal or non-fatal) list, a positive, present latest sample is
one incident tagged with the field's offset in the list; only the fatal
pass additionally fails once per down link. -/
def monitorNvSwitchErrorCounts (fatal : Bool) (p : Proxy) (egid : EntityGroup) (eid : Nat)
    (startTime endTime now : Int) : dcgmReturn × List Incident :=
  let s := effStart startTime now
  let fieldIds := if fatal then nvSwitchFatalFieldIds else nvSwitchNonFatalFieldIds
  let healthWatchResult : HealthResult := if fatal then .fail else .warn
  let healthWatchSystems :=
    if fatal then DCGM_HEALTH_WATCH_NVSWITCH_FATAL else DCGM_HEALTH_WATCH_NVSWITCH_NONFATAL
  let firstField := fieldIds.headD 0
  let acc := fieldIds.foldl
    (fun acc fieldId =>
      match p.getSamples egid eid fieldId s endTime .descending with
      | .ok sv =>
        if ¬ int64IsBlank sv.i64 ∧ sv.i64 > 0 then
          let linkId := fieldId - firstField
          acc ++ [(⟨healthWatchSystems, healthWatchResult,
                    (if fatal then .nvswitchFatalError linkId else .nvswitchNonFatalError linkId),
                    egid, eid⟩ : Incident)]
        else acc
      | _ => acc)
    []
  if fatal then
    match p.getNvLinkLinkStatus .nvswitch eid with
    | (.ok, linkStates) =>
      let downs := (List.range DCGM_NVLINK_MAX_LINKS_PER_NVSWITCH).filterMap
        (fun i =>
          if linkStates i = .down then
            some (⟨healthWatchSystems, healthWatchResult, .nvlinkDown i, egid, eid⟩ : Incident)
          else Option.none)
      (.ok, acc ++ downs)
    | (r, _) => (r, acc)
  else (.ok, acc)

/-! ### Single-device monitor entry point -/

/-- One bit of the `MonitorWatchesForGpu` dispatch: the version-1 loop only
recognises the PCIe, Memory, Inforom, Thermal, Power and NVLink bits;
anything else leaves `tmpRet` at success and adds nothing. -/
def mwfgStep (st : HWState) (p : Proxy) (gpuId : Nat) (startTime endTime now : Int)
    (mask : Nat) (i : Nat) : dcgmReturn × List Incident :=
  let bit := 2 ^ i
  if bit = DCGM_HEALTH_WATCH_PCIE then
    (if bit &&& mask ≠ 0 then monitorPcie p .gpu gpuId startTime endTime now else (.ok, []))
  else if bit = DCGM_HEALTH_WATCH_MEM then
    (if bit &&& mask ≠ 0 then monitorMem st p .gpu gpuId startTime endTime now else (.ok, []))
  else if bit = DCGM_HEALTH_WATCH_INFOROM then
    (if bit &&& mask ≠ 0 then monitorInforom p .gpu gpuId startTime endTime else (.ok, []))
  else if bit = DCGM_HEALTH_WATCH_THERMAL then
    (if bit &&& mask ≠ 0 then monitorThermal p .gpu gpuId startTime endTime now else (.ok, []))
  else if bit = DCGM_HEALTH_WATCH_POWER then
    (if bit &&& mask ≠ 0 then monitorPower p .gpu gpuId startTime endTime now else (.ok, []))
  else if bit = DCGM_HEALTH_WATCH_NVLINK then
    (if bit &&& mask ≠ 0 then monitorNVLink p .gpu gpuId startTime endTime now else (.ok, []))
  else (.ok, [])

/-- The status/incident accumulation of the `MonitorWatchesForGpu` loop:
`if ((ret == DCGM_ST_OK) && (tmpRet != DCGM_ST_OK)) ret = tmpRet;` and the
response keeps accumulating. -/
def mwfgCombine (acc r : dcgmReturn × List Incident) : dcgmReturn × List Incident :=
  (if acc.1 = .ok then r.1 else acc.1, acc.2 ++ r.2)

/-- `DcgmHealthWatch::MonitorWatchesForGpu`: validates the device id, then
walks the version-1 count of health bits with a caller-supplied mask,
keeping the first non-success evaluator status. -/
def monitorWatchesForGpu (st : HWState) (p : Proxy) (gpuId : Nat)
    (startTime endTime now : Int) (mask : Nat) : dcgmReturn × List Incident :=
  if DCGM_MAX_NUM_DEVICES ≤ gpuId then (.badParam, [])
  else
    (List.range DCGM_HEALTH_WATCH_COUNT_V1).foldl
      (fun acc i => mwfgCombine acc (mwfgStep st p gpuId startTime endTime now mask i))
      (.ok, [])

/-! ### Event ingestion (uncontained-error tracker) -/

/-- One record of the metric-update feed (`dcgmBufferedFv_t`). -/
structure BufferedFv where
  entityGroupId : EntityGroup
  entityId : Nat
  fieldId : Nat
  value : Int
deriving DecidableEq, Repr

/-- `DcgmHealthWatch::ProcessXidFv`: XID 95 marks the device as having had
an uncontained error; every other code is ignored. -/
def processXidFv (st : HWState) (fv : BufferedFv) : HWState :=
  if fv.value = 95 then { st with uncontained := insert fv.entityId st.uncontained }
  else st

/-- `DcgmHealthWatch::OnFieldValuesUpdate`: scans the batch, reacting only
to the XID field of GPU entities. -/
def onFieldValuesUpdate (st : HWState) (batch : List BufferedFv) : HWState :=
  batch.foldl
    (fun st fv =>
      if fv.entityGroupId ≠ .gpu then st
      else if fv.fieldId = DCGM_FI_DEV_XID_ERRORS then processXidFv st fv
      else st)
    st

/-! ### Specification-side helpers (used only in theorem statements) -/

/-- The first non-success status of a list, or success: the aggregation
the spec ascribes to `MonitorWatchesForGpu`. -/
def firstNonOk (l : List dcgmReturn) : dcgmReturn :=
  (l.find? (fun r => r ≠ .ok)).getD .ok

/-- Number of uncontained-error incidents in a response. -/
def countUncontained (incs : List Incident) : Nat :=
  (incs.filter (fun i => i.code = ErrCode.uncontainedError)).length

/-- The absolute window delta between two sample values, as the spec
phrases `|earliest − latest|`. -/
def absDelta (a b : Int) : Int := |a - b|

/-! ### Concrete scenario proxies (for counterexamples and witnesses) -/

/-- A benign proxy: one GPU entity in every group, all watches succeed,
no samples anywhere, all links up. -/
def pOkNoData : Proxy where
  getGroupEntities := fun _ => (.ok, [⟨.gpu, 0⟩])
  addFieldWatch := fun _ _ _ _ _ _ => .ok
  updateAllFields := .ok
  getSamples := fun _ _ _ _ _ _ => .noData
  getLatestSample := fun _ _ _ => .noData
  getNvLinkLinkStatus := fun _ _ => (.ok, fun _ => .up)

/-- Like `pOkNoData`, but every subscription attempt fails with a
connection-class error. -/
def pInstallerFails : Proxy :=
  { pOkNoData with addFieldWatch := fun _ _ _ _ _ _ => .err 1 }

/-- Like `pOkNoData`, but the final field refresh fails. -/
def pRefreshFails : Proxy :=
  { pOkNoData with updateAllFields := .err 7 }

/-- Retired-pages scenario: the windowed DBE-retired count is 60 (the hard
limit) while the SBE-retired query reports no data. -/
def pCapSbeNoData : Proxy :=
  { pOkNoData with
    getSamples := fun _ _ f _ _ _ =>
      if f = DCGM_FI_DEV_RETIRED_DBE then .ok ⟨60, 0⟩ else .noData }

/-- Retired-pages scenario: the windowed DBE-retired count is past the
soft limit, the SBE-retired query reports no data, and the one-week-ago
DBE query (the one issued with start time 0) is not watched. -/
def pSoftWeekNotWatched : Proxy :=
  { pOkNoData with
    getSamples := fun _ _ f s _ _ =>
      if f = DCGM_FI_DEV_RETIRED_DBE then
        (if s = 0 then .notWatched else .ok ⟨16, 0⟩)
      else .noData }

/-- Retired-pages scenario: SBE 3 and DBE 2 in the window (cap reached for
a hard limit of 5 would need a lower limit; with the real limit of 60 this
is below the cap), and a one-week-ago DBE count of 14. -/
def pRetired (sbe dbe week : Int) : Proxy :=
  { pOkNoData with
    getSamples := fun _ _ f s _ _ =>
      if f = DCGM_FI_DEV_RETIRED_DBE then (if s = 0 then .ok ⟨week, 0⟩ else .ok ⟨dbe, 0⟩)
      else if f = DCGM_FI_DEV_RETIRED_SBE then .ok ⟨sbe, 0⟩
      else .noData }

/-- PCIe scenario: replay counter is `a` at the window start and `b` at
the window end. -/
def pPcie (a b : Int) : Proxy :=
  { pOkNoData with
    getSamples := fun _ _ f _ _ o =>
      if f = DCGM_FI_DEV_PCIE_REPLAY_COUNTER then
        (match o with | .ascending => .ok ⟨a, 0⟩ | .descending => .ok ⟨b, 0⟩)
      else .noData }

/-- NVLink scenario: one chosen counter moves from `a` to `b` across the
window, the other counters report no data, all links up. -/
def pNvlink (f : Nat) (a b : Int) : Proxy :=
  { pOkNoData with
    getSamples := fun _ _ g _ _ o =>
      if g = f then (match o with | .ascending => .ok ⟨a, 0⟩ | .descending => .ok ⟨b, 0⟩)
      else .noData }

/-! ## Helper lemmas -/

theorem lookupMask_storeMask (l : List (Nat × Nat)) (k v : Nat) :
    lookupMask (storeMask l k v) k = some v := by
  simp [storeMask, lookupMask]

/-- Whenever group resolution succeeds, `SetWatches` leaves the state with
the requested mask stored for the group (and the uncontained set intact),
regardless of any installer or refresh outcome. -/
theorem setWatches_state (p : Proxy) (st : HWState) (gid systems : Nat) (iv : Int) (ka : ℚ)
    (ents : List Entity) (h : p.getGroupEntities gid = (.ok, ents)) :
    (setWatches p st gid systems iv ka).2
      = { st with groupWatch := storeMask st.groupWatch gid systems } := by
  simp only [setWatches, h]

/-- The switch-id accumulator of the `SetWatches` entity loop stays empty
when the group has no switch entities. -/
theorem entityFold_no_switch_snd (p : Proxy) (systems : Nat) (iv : Int) (ka : ℚ) :
    ∀ (ents : List Entity) (a : dcgmReturn × List Nat),
      (∀ ent ∈ ents, ent.entityGroupId ≠ .nvswitch) →
      (ents.foldl (setWatchesEntityStep p systems iv ka) a).2 = a.2 := by
  intro ents
  induction ents with
  | nil => intro a _; rfl
  | cons ent rest ih =>
    intro a hno
    rw [List.foldl_cons]
    have h2 : (setWatchesEntityStep p systems iv ka a ent).2 = a.2 := by
      have hne := hno ent (List.mem_cons_self _ _)
      obtain ⟨eg, eid⟩ := ent
      cases eg <;> simp_all [setWatchesEntityStep]
    rw [ih _ (fun e he => hno e (List.mem_cons_of_mem _ he)), h2]

/-! ## C7 -/

/-- C7: provided group-entity resolution succeeds, `GetWatches` right after
`SetWatches(groupId, mask)` returns exactly `mask` (for every mask), and a
later `SetWatches` for the same group fully replaces the stored mask with
the new one rather than merging. -/
theorem getWatches_after_setWatches (p : Proxy) (st : HWState)
    (gid systems systems2 : Nat) (iv : Int) (ka : ℚ) (ents : List Entity)
    (h : p.getGroupEntities gid = (.ok, ents)) :
    getWatches p (setWatches p st gid systems iv ka).2 gid = (.ok, systems) ∧
    lookupMask (setWatches p (setWatches p st gid systems iv ka).2 gid systems2 iv ka).2.groupWatch
        gid = some systems2 := by
  constructor
  · rw [setWatches_state p st gid systems iv ka ents h]
    simp [getWatches, h, lookupMask_storeMask]
  · rw [setWatches_state p _ gid systems2 iv ka ents h]
    exact lookupMask_storeMask _ gid systems2

/-- Witness for C7 at a concrete group/proxy. -/
theorem getWatches_after_setWatches_witness :
    getWatches pOkNoData (setWatches pOkNoData initState 1 5 1000000 600).2 1 = (.ok, 5) ∧
    lookupMask (setWatches pOkNoData (setWatches pOkNoData initState 1 5 1000000 600).2
        1 2 1000000 600).2.groupWatch 1 = some 2 :=
  getWatches_after_setWatches pOkNoData initState 1 5 2 1000000 600 [⟨.gpu, 0⟩] rfl

/-! ## C9 -/

/-- C9: `SetWatches` stores the requested mask before running installers
and never rolls it back: for every proxy whose group resolution succeeds
(installers and refresh may fail arbitrarily), the stored mask is the full
requested mask and a subsequent `GetWatches` returns it. -/
theorem watch_mask_stored_despite_errors (p : Proxy) (st : HWState)
    (gid systems : Nat) (iv : Int) (ka : ℚ) (ents : List Entity)
    (h : p.getGroupEntities gid = (.ok, ents)) :
    lookupMask (setWatches p st gid systems iv ka).2.groupWatch gid = some systems ∧
    getWatches p (setWatches p st gid systems iv ka).2 gid = (.ok, systems) := by
  constructor
  · rw [setWatches_state p st gid systems iv ka ents h]
    exact lookupMask_storeMask _ gid systems
  · rw [setWatches_state p st gid systems iv ka ents h]
    simp [getWatches, h, lookupMask_storeMask]

/-- Witness for C9: the refresh fails, `SetWatches` returns that failure,
yet the stored mask is the full requested mask. -/
theorem watch_mask_stored_despite_errors_witness :
    (setWatches pRefreshFails initState 1 5 1000000 600).1 = .err 7 ∧
    lookupMask (setWatches pRefreshFails initState 1 5 1000000 600).2.groupWatch 1 = some 5 ∧
    getWatches pRefreshFails (setWatches pRefreshFails initState 1 5 1000000 600).2 1
      = (.ok, 5) :=
  ⟨by decide,
   (watch_mask_stored_despite_errors pRefreshFails initState 1 5 1000000 600 [⟨.gpu, 0⟩] rfl).1,
   (watch_mask_stored_despite_errors pRefreshFails initState 1 5 1000000 600 [⟨.gpu, 0⟩] rfl).2⟩

/-! ## C1 -/

/-- C1 counterexample: a per-category installer call fails for a
device-class entity (PCIe subscription returns an error) while everything
later succeeds, yet `SetWatches` returns success — the claimed
"most recently observed non-success status" is never propagated from the
device-entity installer loop. -/
theorem setWatches_ok_despite_installer_failure :
    (setWatches pInstallerFails initState 1 DCGM_HEALTH_WATCH_PCIE 1000000 600).1 = .ok ∧
    setPcie pInstallerFails .gpu 0 true 1000000 600 = .err 1 :=
  ⟨by decide, by decide⟩

/-- C1 amended: when group resolution succeeds, the status returned by
`SetWatches` reflects only the final field refresh and (when switch
entities are present) the switch installer: device-class and CPU installer
failures are logged but never propagated.  In particular, with no switch
entities and a successful refresh the call returns success no matter what
any installer returned. -/
theorem setWatches_return_status_amended (p : Proxy) (st : HWState)
    (gid systems : Nat) (iv : Int) (ka : ℚ) (ents : List Entity)
    (h : p.getGroupEntities gid = (.ok, ents)) :
    ((∀ ent ∈ ents, ent.entityGroupId ≠ .nvswitch) → p.updateAllFields = .ok →
        (setWatches p st gid systems iv ka).1 = .ok) ∧
    (∀ c, p.updateAllFields = .err c → (setWatches p st gid systems iv ka).1 = .err c) := by
  constructor
  · intro hno hupd
    simp only [setWatches, h, setWatchesEntityFold, hupd]
    rw [entityFold_no_switch_snd p systems iv ka ents (.ok, []) hno]
    simp
  · intro c hupd
    simp only [setWatches, h, hupd]

/-- Witness for C1 amended: with every installer failing but no switches
and a clean refresh, the call returns success; with a failing refresh the
refresh status is returned. -/
theorem setWatches_return_status_amended_witness :
    (setWatches pInstallerFails initState 1 (2 ^ 12 - 1) 1000000 600).1 = .ok ∧
    (setWatches pRefreshFails initState 1 (2 ^ 12 - 1) 1000000 600).1 = .err 7 :=
  ⟨(setWatches_return_status_amended pInstallerFails initState 1 (2 ^ 12 - 1) 1000000 600
      [⟨.gpu, 0⟩] rfl).1 (by decide) rfl,
   (setWatches_return_status_amended pRefreshFails initState 1 (2 ^ 12 - 1) 1000000 600
      [⟨.gpu, 0⟩] rfl).2 7 rfl⟩

/-! ## C5 -/

theorem ifGe_sub_eq_abs (x y : Int) : (if x ≥ y then x - y else y - x) = |x - y| := by
  split
  · exact (abs_of_nonneg (by omega)).symm
  · rw [abs_sub_comm]
    exact (abs_of_nonneg (by omega)).symm

/-- Narrowing to 32 bits is the identity on small non-negative values. -/
theorem toInt32_eq_self (x : Int) (h0 : 0 ≤ x) (h : x < 2 ^ 31) : toInt32 x = x := by
  unfold toInt32
  omega

/-- C5 counterexample: a window delta of 2^31 (far above the fixed replay
limit) raises no incident, because the source narrows the delta to a
signed 32-bit `int` (`int pciReplayRate`, which wraps to −2^31 here)
before comparing it with the limit. -/
theorem monitorPcie_wrap_no_warn :
    absDelta (2147483648 : Int) 0 > DCGM_LIMIT_MAX_PCIREPLAY_RATE ∧
    monitorPcie (pPcie 2147483648 0) .gpu 0 5 0 1000000 = (.ok, []) := by
  constructor
  · decide
  · decide

/-- C5 amended: in the PCIe evaluator, with both window samples present
and non-blank, a delta equal to the fixed replay limit raises no incident,
and a delta strictly above it raises exactly one WARN on the PCIe system
provided the delta is below 2^31 (the comparison is made on the delta
narrowed to a signed 32-bit `int`, which wraps for larger deltas);
absence (no-data or not-watched) of either sample yields a success return
with no incident. -/
theorem monitorPcie_replay_threshold_amended (p : Proxy) (egid : EntityGroup) (eid : Nat)
    (startTime endTime now : Int) :
    (∀ a b : SampleVal,
      p.getSamples egid eid DCGM_FI_DEV_PCIE_REPLAY_COUNTER (effStart startTime now) endTime
          .ascending = .ok a →
      int64IsBlank a.i64 = false →
      p.getSamples egid eid DCGM_FI_DEV_PCIE_REPLAY_COUNTER (effStart startTime now) endTime
          .descending = .ok b →
      int64IsBlank b.i64 = false →
      (absDelta a.i64 b.i64 = DCGM_LIMIT_MAX_PCIREPLAY_RATE →
        monitorPcie p egid eid startTime endTime now = (.ok, [])) ∧
      (absDelta a.i64 b.i64 > DCGM_LIMIT_MAX_PCIREPLAY_RATE →
        absDelta a.i64 b.i64 < 2 ^ 31 →
        monitorPcie p egid eid startTime endTime now
          = (.ok, [⟨DCGM_HEALTH_WATCH_PCIE, .warn, .pciReplayRate, egid, eid⟩]))) ∧
    ((p.getSamples egid eid DCGM_FI_DEV_PCIE_REPLAY_COUNTER (effStart startTime now) endTime
          .ascending = .noData ∨
      p.getSamples egid eid DCGM_FI_DEV_PCIE_REPLAY_COUNTER (effStart startTime now) endTime
          .ascending = .notWatched) →
      monitorPcie p egid eid startTime endTime now = (.ok, [])) ∧
    (∀ a : SampleVal,
      p.getSamples egid eid DCGM_FI_DEV_PCIE_REPLAY_COUNTER (effStart startTime now) endTime
          .ascending = .ok a →
      int64IsBlank a.i64 = false →
      (p.getSamples egid eid DCGM_FI_DEV_PCIE_REPLAY_COUNTER (effStart startTime now) endTime
          .descending = .noData ∨
       p.getSamples egid eid DCGM_FI_DEV_PCIE_REPLAY_COUNTER (effStart startTime now) endTime
          .descending = .notWatched) →
      monitorPcie p egid eid startTime endTime now = (.ok, [])) := by
  refine ⟨fun a b h1 ha h2 hb => ⟨fun hdelta => ?_, fun hdelta hwrap => ?_⟩,
    fun h1 => ?_, fun a h1 ha h2 => ?_⟩
  · simp only [monitorPcie, h1, ha, h2, hb, Bool.false_eq_true, if_false]
    rw [ifGe_sub_eq_abs,
      toInt32_eq_self _ (abs_nonneg _)
        (by simp only [absDelta, DCGM_LIMIT_MAX_PCIREPLAY_RATE] at hdelta; omega)]
    have hno : ¬ (|a.i64 - b.i64| > DCGM_LIMIT_MAX_PCIREPLAY_RATE) := by
      simp only [absDelta] at hdelta; omega
    rw [if_neg hno]
  · simp only [monitorPcie, h1, ha, h2, hb, Bool.false_eq_true, if_false]
    rw [ifGe_sub_eq_abs,
      toInt32_eq_self _ (abs_nonneg _) (by simpa [absDelta] using hwrap)]
    have hyes : |a.i64 - b.i64| > DCGM_LIMIT_MAX_PCIREPLAY_RATE := by
      simp only [absDelta] at hdelta; omega
    rw [if_pos hyes]
  · rcases h1 with h1 | h1 <;> simp only [monitorPcie, h1]
  · rcases h2 with h2 | h2 <;>
      simp only [monitorPcie, h1, ha, h2, Bool.false_eq_true, if_false]

/-- Witness for C5 amended: delta at the limit, above the limit (and below
the 32-bit wrap bound), and an all-absent sample store. -/
theorem monitorPcie_replay_threshold_amended_witness :
    monitorPcie (pPcie 0 8) .gpu 0 5 0 1000000 = (.ok, []) ∧
    monitorPcie (pPcie 0 9) .gpu 0 5 0 1000000
      = (.ok, [⟨DCGM_HEALTH_WATCH_PCIE, .warn, .pciReplayRate, .gpu, 0⟩]) ∧
    monitorPcie pOkNoData .gpu 0 5 0 1000000 = (.ok, []) :=
  ⟨((monitorPcie_replay_threshold_amended (pPcie 0 8) .gpu 0 5 0 1000000).1 ⟨0, 0⟩ ⟨8, 0⟩
      (by decide) (by decide) (by decide) (by decide)).1 (by decide),
   ((monitorPcie_replay_threshold_amended (pPcie 0 9) .gpu 0 5 0 1000000).1 ⟨0, 0⟩ ⟨9, 0⟩
      (by decide) (by decide) (by decide) (by decide)).2 (by decide) (by decide),
   (monitorPcie_replay_threshold_amended pOkNoData .gpu 0 5 0 1000000).2.1
     (Or.inl (by decide))⟩

/-! ## C4 -/

/-- Reduction of the retired-pages sub-check after fixing the two window
query results (which must not be upstream errors). -/
theorem msdrp_reduce (p : Proxy) (egid : EntityGroup) (eid : Nat)
    (startTime endTime now : Int) (rdbe rsbe : SampleResult)
    (hdbe : p.getSamples egid eid DCGM_FI_DEV_RETIRED_DBE startTime endTime .descending = rdbe)
    (hsbe : p.getSamples egid eid DCGM_FI_DEV_RETIRED_SBE startTime endTime .descending = rsbe)
    (hdbeNotErr : ∀ c, rdbe ≠ .err c) (hsbeNotErr : ∀ c, rsbe ≠ .err c) :
    monitorMemSbeDbeRetiredPages p egid eid startTime endTime now =
      (if (if int64IsBlank (bufVal rsbe).i64 then 0 else (bufVal rsbe).i64) +
          (if int64IsBlank (bufVal rdbe).i64 then 0 else (bufVal rdbe).i64)
          ≥ DCGM_LIMIT_MAX_RETIRED_PAGES then
        (sampleStatus rsbe, [⟨DCGM_HEALTH_WATCH_MEM, .fail, .retiredPagesLimit, egid, eid⟩])
      else if ¬ int64IsBlank (bufVal rdbe).i64 ∧
          (bufVal rdbe).i64 > DCGM_LIMIT_MAX_RETIRED_PAGES_SOFT_LIMIT then
        match p.getSamples egid eid DCGM_FI_DEV_RETIRED_DBE 0 (now - 604800000000)
            .descending with
        | .err _ => (sampleStatus rsbe, [])
        | .notWatched => (sampleStatus rsbe, [])
        | rweek =>
          if int64IsBlank (bufVal rweek).i64 then (.ok, [])
          else if (bufVal rdbe).i64 - (bufVal rweek).i64 > 1 then
            (.ok, [⟨DCGM_HEALTH_WATCH_MEM, .fail, .retiredPagesDbeLimit, egid, eid⟩])
          else (.ok, [])
      else (.ok, [])) := by
  cases rdbe <;> cases rsbe <;>
    first
      | exact absurd rfl (hdbeNotErr _)
      | exact absurd rfl (hsbeNotErr _)
      | simp only [monitorMemSbeDbeRetiredPages, hdbe, hsbe]

/-- C4: in the memory retired-pages sub-check, when the sum of the latest
non-blank SBE and DBE retired-page counts reaches the hard limit, exactly
one FAIL incident (the cap rule) is raised and the weekly-rate test is
skipped (the conclusion holds for every behaviour of the one-week-ago
query); otherwise, when the latest DBE count exceeds the soft limit, the
DBE count as of one week before `now` is fetched and a FAIL incident is
raised if and only if the weekly delta exceeds one. -/
theorem retiredPages_cap_and_weekly_rate (p : Proxy) (egid : EntityGroup) (eid : Nat)
    (startTime endTime now : Int) (rdbe rsbe : SampleResult)
    (hdbe : p.getSamples egid eid DCGM_FI_DEV_RETIRED_DBE startTime endTime .descending = rdbe)
    (hsbe : p.getSamples egid eid DCGM_FI_DEV_RETIRED_SBE startTime endTime .descending = rsbe)
    (hdbeNotErr : ∀ c, rdbe ≠ .err c) (hsbeNotErr : ∀ c, rsbe ≠ .err c) :
    ((if int64IsBlank (bufVal rsbe).i64 then 0 else (bufVal rsbe).i64) +
        (if int64IsBlank (bufVal rdbe).i64 then 0 else (bufVal rdbe).i64)
        ≥ DCGM_LIMIT_MAX_RETIRED_PAGES →
      (monitorMemSbeDbeRetiredPages p egid eid startTime endTime now).2
        = [⟨DCGM_HEALTH_WATCH_MEM, .fail, .retiredPagesLimit, egid, eid⟩]) ∧
    ((if int64IsBlank (bufVal rsbe).i64 then 0 else (bufVal rsbe).i64) +
        (if int64IsBlank (bufVal rdbe).i64 then 0 else (bufVal rdbe).i64)
        < DCGM_LIMIT_MAX_RETIRED_PAGES →
      int64IsBlank (bufVal rdbe).i64 = false →
      (bufVal rdbe).i64 > DCGM_LIMIT_MAX_RETIRED_PAGES_SOFT_LIMIT →
      ∀ w : SampleVal,
        p.getSamples egid eid DCGM_FI_DEV_RETIRED_DBE 0 (now - 604800000000) .descending
          = .ok w →
        (monitorMemSbeDbeRetiredPages p egid eid startTime endTime now).2
          = if (bufVal rdbe).i64 - w.i64 > 1 then
              [⟨DCGM_HEALTH_WATCH_MEM, .fail, .retiredPagesDbeLimit, egid, eid⟩]
            else []) := by
  constructor
  · intro hcap
    rw [msdrp_reduce p egid eid startTime endTime now rdbe rsbe hdbe hsbe hdbeNotErr hsbeNotErr,
      if_pos hcap]
  · intro hcap hnb hsoft w hweek
    have hnotcap : ¬ ((if int64IsBlank (bufVal rsbe).i64 then 0 else (bufVal rsbe).i64) +
        (if int64IsBlank (bufVal rdbe).i64 then 0 else (bufVal rdbe).i64)
        ≥ DCGM_LIMIT_MAX_RETIRED_PAGES) := by omega
    have hnb' : ¬ (DCGM_INT64_BLANK ≤ (bufVal rdbe).i64) := by
      simpa [int64IsBlank] using hnb
    rw [msdrp_reduce p egid eid startTime endTime now rdbe rsbe hdbe hsbe hdbeNotErr hsbeNotErr,
      if_neg hnotcap, if_pos (show _ ∧ _ from ⟨by simp [hnb], hsoft⟩)]
    simp only [hweek]
    simp only [show ∀ v : SampleVal, bufVal (SampleResult.ok v) = v from fun _ => rfl]
    by_cases hw : int64IsBlank w.i64 = true
    · have hwBound : DCGM_INT64_BLANK ≤ w.i64 := by simpa [int64IsBlank] using hw
      have hno : ¬ ((bufVal rdbe).i64 - w.i64 > 1) := by omega
      rw [if_pos hw, if_neg hno]
    · rw [if_neg hw]
      by_cases hgt : (bufVal rdbe).i64 - w.i64 > 1
      · rw [if_pos hgt, if_pos hgt]
      · rw [if_neg hgt, if_neg hgt]

/-- Witness for C4: SBE 30 + DBE 30 hits the cap (one FAIL, week query
irrelevant); DBE 16 with a week-ago count of 14 (Δ = 2) raises the weekly
FAIL; DBE 16 with a week-ago count of 15 (Δ = 1) raises none. -/
theorem retiredPages_cap_and_weekly_rate_witness :
    (monitorMemSbeDbeRetiredPages (pRetired 30 30 0) .gpu 0 5 0 1000000).2
      = [⟨DCGM_HEALTH_WATCH_MEM, .fail, .retiredPagesLimit, .gpu, 0⟩] ∧
    (monitorMemSbeDbeRetiredPages (pRetired 0 16 14) .gpu 0 5 0 1000000).2
      = [⟨DCGM_HEALTH_WATCH_MEM, .fail, .retiredPagesDbeLimit, .gpu, 0⟩] ∧
    (monitorMemSbeDbeRetiredPages (pRetired 0 16 15) .gpu 0 5 0 1000000).2 = [] := by
  refine ⟨(retiredPages_cap_and_weekly_rate (pRetired 30 30 0) .gpu 0 5 0 1000000
      (.ok ⟨30, 0⟩) (.ok ⟨30, 0⟩) (by decide) (by decide) (by rintro c ⟨⟩) (by rintro c ⟨⟩)).1
      (by decide), ?_, ?_⟩
  · have h := (retiredPages_cap_and_weekly_rate (pRetired 0 16 14) .gpu 0 5 0 1000000
      (.ok ⟨16, 0⟩) (.ok ⟨0, 0⟩) (by decide) (by decide) (by rintro c ⟨⟩) (by rintro c ⟨⟩)).2
      (by decide) (by decide) (by decide) ⟨14, 0⟩ (by decide)
    simpa using h
  · have h := (retiredPages_cap_and_weekly_rate (pRetired 0 16 15) .gpu 0 5 0 1000000
      (.ok ⟨16, 0⟩) (.ok ⟨0, 0⟩) (by decide) (by decide) (by rintro c ⟨⟩) (by rintro c ⟨⟩)).2
      (by decide) (by decide) (by decide) ⟨15, 0⟩ (by decide)
    simpa using h

/-! ## C2 -/

/-- C2 counterexample: with the windowed DBE-retired count at the hard
limit and the SBE-retired query answering no-data, the retired-pages
sub-check raises the cap FAIL incident but returns the no-data status
rather than success — an expected-absence outcome surfaced as the return
value on the very path the claim singles out. -/
theorem retiredPages_cap_path_returns_noData :
    monitorMemSbeDbeRetiredPages pCapSbeNoData .gpu 0 5 0 1000000
      = (.noData, [⟨DCGM_HEALTH_WATCH_MEM, .fail, .retiredPagesLimit, .gpu, 0⟩]) := by
  decide

/-- C2 amended: in the PCIe evaluator every expected-absence outcome
(no-data, not-watched, blank value at either end) yields a success return
with no incident.  In the retired-pages sub-check: when neither the cap
rule nor the soft-limit rule triggers, the call returns success with no
incident (absent or blank window samples count as zero); the cap path
raises its FAIL incident but returns the status of the immediately
preceding SBE fetch (success exactly when that fetch succeeded); on the
soft-limit path a not-watched one-week-ago fetch likewise returns the SBE
fetch's status with no incident, a blank week value yields success with
no incident, and a no-data week fetch is treated as a zero count —
success, but with the weekly FAIL incident whenever the latest DBE count
exceeds one. -/
theorem absence_handling_amended (p : Proxy) (egid : EntityGroup) (eid : Nat)
    (startTime endTime now : Int) :
    ((p.getSamples egid eid DCGM_FI_DEV_PCIE_REPLAY_COUNTER (effStart startTime now) endTime
          .ascending = .noData ∨
      p.getSamples egid eid DCGM_FI_DEV_PCIE_REPLAY_COUNTER (effStart startTime now) endTime
          .ascending = .notWatched) →
      monitorPcie p egid eid startTime endTime now = (.ok, [])) ∧
    (∀ a : SampleVal,
      p.getSamples egid eid DCGM_FI_DEV_PCIE_REPLAY_COUNTER (effStart startTime now) endTime
          .ascending = .ok a →
      int64IsBlank a.i64 = true →
      monitorPcie p egid eid startTime endTime now = (.ok, [])) ∧
    (∀ a : SampleVal,
      p.getSamples egid eid DCGM_FI_DEV_PCIE_REPLAY_COUNTER (effStart startTime now) endTime
          .ascending = .ok a →
      int64IsBlank a.i64 = false →
      (p.getSamples egid eid DCGM_FI_DEV_PCIE_REPLAY_COUNTER (effStart startTime now) endTime
          .descending = .noData ∨
       p.getSamples egid eid DCGM_FI_DEV_PCIE_REPLAY_COUNTER (effStart startTime now) endTime
          .descending = .notWatched) →
      monitorPcie p egid eid startTime endTime now = (.ok, [])) ∧
    (∀ a b : SampleVal,
      p.getSamples egid eid DCGM_FI_DEV_PCIE_REPLAY_COUNTER (effStart startTime now) endTime
          .ascending = .ok a →
      int64IsBlank a.i64 = false →
      p.getSamples egid eid DCGM_FI_DEV_PCIE_REPLAY_COUNTER (effStart startTime now) endTime
          .descending = .ok b →
      int64IsBlank b.i64 = true →
      monitorPcie p egid eid startTime endTime now = (.ok, [])) ∧
    (∀ rdbe rsbe : SampleResult,
      p.getSamples egid eid DCGM_FI_DEV_RETIRED_DBE startTime endTime .descending = rdbe →
      p.getSamples egid eid DCGM_FI_DEV_RETIRED_SBE startTime endTime .descending = rsbe →
      (∀ c, rdbe ≠ .err c) → (∀ c, rsbe ≠ .err c) →
      (if int64IsBlank (bufVal rsbe).i64 then 0 else (bufVal rsbe).i64) +
          (if int64IsBlank (bufVal rdbe).i64 then 0 else (bufVal rdbe).i64)
          ≥ DCGM_LIMIT_MAX_RETIRED_PAGES →
      monitorMemSbeDbeRetiredPages p egid eid startTime endTime now
        = (sampleStatus rsbe,
           [⟨DCGM_HEALTH_WATCH_MEM, .fail, .retiredPagesLimit, egid, eid⟩])) ∧
    (∀ rdbe rsbe : SampleResult,
      p.getSamples egid eid DCGM_FI_DEV_RETIRED_DBE startTime endTime .descending = rdbe →
      p.getSamples egid eid DCGM_FI_DEV_RETIRED_SBE startTime endTime .descending = rsbe →
      (∀ c, rdbe ≠ .err c) → (∀ c, rsbe ≠ .err c) →
      ¬ ((if int64IsBlank (bufVal rsbe).i64 then 0 else (bufVal rsbe).i64) +
          (if int64IsBlank (bufVal rdbe).i64 then 0 else (bufVal rdbe).i64)
          ≥ DCGM_LIMIT_MAX_RETIRED_PAGES) →
      ¬ (¬ int64IsBlank (bufVal rdbe).i64 ∧
          (bufVal rdbe).i64 > DCGM_LIMIT_MAX_RETIRED_PAGES_SOFT_LIMIT) →
      monitorMemSbeDbeRetiredPages p egid eid startTime endTime now = (.ok, [])) ∧
    (∀ rdbe rsbe : SampleResult,
      p.getSamples egid eid DCGM_FI_DEV_RETIRED_DBE startTime endTime .descending = rdbe →
      p.getSamples egid eid DCGM_FI_DEV_RETIRED_SBE startTime endTime .descending = rsbe →
      (∀ c, rdbe ≠ .err c) → (∀ c, rsbe ≠ .err c) →
      ¬ ((if int64IsBlank (bufVal rsbe).i64 then 0 else (bufVal rsbe).i64) +
          (if int64IsBlank (bufVal rdbe).i64 then 0 else (bufVal rdbe).i64)
          ≥ DCGM_LIMIT_MAX_RETIRED_PAGES) →
      int64IsBlank (bufVal rdbe).i64 = false →
      (bufVal rdbe).i64 > DCGM_LIMIT_MAX_RETIRED_PAGES_SOFT_LIMIT →
      p.getSamples egid eid DCGM_FI_DEV_RETIRED_DBE 0 (now - 604800000000) .descending
        = .notWatched →
      monitorMemSbeDbeRetiredPages p egid eid startTime endTime now
        = (sampleStatus rsbe, [])) ∧
    (∀ (rdbe rsbe : SampleResult) (w : SampleVal),
      p.getSamples egid eid DCGM_FI_DEV_RETIRED_DBE startTime endTime .descending = rdbe →
      p.getSamples egid eid DCGM_FI_DEV_RETIRED_SBE startTime endTime .descending = rsbe →
      (∀ c, rdbe ≠ .err c) → (∀ c, rsbe ≠ .err c) →
      ¬ ((if int64IsBlank (bufVal rsbe).i64 then 0 else (bufVal rsbe).i64) +
          (if int64IsBlank (bufVal rdbe).i64 then 0 else (bufVal rdbe).i64)
          ≥ DCGM_LIMIT_MAX_RETIRED_PAGES) →
      int64IsBlank (bufVal rdbe).i64 = false →
      (bufVal rdbe).i64 > DCGM_LIMIT_MAX_RETIRED_PAGES_SOFT_LIMIT →
      p.getSamples egid eid DCGM_FI_DEV_RETIRED_DBE 0 (now - 604800000000) .descending
        = .ok w →
      int64IsBlank w.i64 = true →
      monitorMemSbeDbeRetiredPages p egid eid startTime endTime now = (.ok, [])) ∧
    (∀ rdbe rsbe : SampleResult,
      p.getSamples egid eid DCGM_FI_DEV_RETIRED_DBE startTime endTime .descending = rdbe →
      p.getSamples egid eid DCGM_FI_DEV_RETIRED_SBE startTime endTime .descending = rsbe →
      (∀ c, rdbe ≠ .err c) → (∀ c, rsbe ≠ .err c) →
      ¬ ((if int64IsBlank (bufVal rsbe).i64 then 0 else (bufVal rsbe).i64) +
          (if int64IsBlank (bufVal rdbe).i64 then 0 else (bufVal rdbe).i64)
          ≥ DCGM_LIMIT_MAX_RETIRED_PAGES) →
      int64IsBlank (bufVal rdbe).i64 = false →
      (bufVal rdbe).i64 > DCGM_LIMIT_MAX_RETIRED_PAGES_SOFT_LIMIT →
      p.getSamples egid eid DCGM_FI_DEV_RETIRED_DBE 0 (now - 604800000000) .descending
        = .noData →
      monitorMemSbeDbeRetiredPages p egid eid startTime endTime now
        = (.ok, if (bufVal rdbe).i64 > 1 then
            [⟨DCGM_HEALTH_WATCH_MEM, .fail, .retiredPagesDbeLimit, egid, eid⟩]
          else [])) := by
  refine ⟨fun h1 => ?_, fun a h1 ha => ?_, fun a h1 ha h2 => ?_, fun a b h1 ha h2 hb => ?_,
    fun rdbe rsbe hdbe hsbe hdne hsne hcap => ?_,
    fun rdbe rsbe hdbe hsbe hdne hsne hnotcap hnsoft => ?_,
    fun rdbe rsbe hdbe hsbe hdne hsne hnotcap hnb hsoft hweek => ?_,
    fun rdbe rsbe w hdbe hsbe hdne hsne hnotcap hnb hsoft hweek hw => ?_,
    fun rdbe rsbe hdbe hsbe hdne hsne hnotcap hnb hsoft hweek => ?_⟩
  · rcases h1 with h1 | h1 <;> simp only [monitorPcie, h1]
  · simp only [monitorPcie, h1, ha, if_true]
  · rcases h2 with h2 | h2 <;>
      simp only [monitorPcie, h1, ha, h2, Bool.false_eq_true, if_false]
  · simp only [monitorPcie, h1, ha, h2, hb, Bool.false_eq_true, if_false, if_true]
  · rw [msdrp_reduce p egid eid startTime endTime now rdbe rsbe hdbe hsbe hdne hsne,
      if_pos hcap]
  · rw [msdrp_reduce p egid eid startTime endTime now rdbe rsbe hdbe hsbe hdne hsne,
      if_neg hnotcap, if_neg hnsoft]
  · rw [msdrp_reduce p egid eid startTime endTime now rdbe rsbe hdbe hsbe hdne hsne,
      if_neg hnotcap, if_pos (show _ ∧ _ from ⟨by simp [hnb], hsoft⟩)]
    simp only [hweek]
  · rw [msdrp_reduce p egid eid startTime endTime now rdbe rsbe hdbe hsbe hdne hsne,
      if_neg hnotcap, if_pos (show _ ∧ _ from ⟨by simp [hnb], hsoft⟩)]
    simp only [hweek]
    simp only [show ∀ v : SampleVal, bufVal (SampleResult.ok v) = v from fun _ => rfl]
    rw [if_pos hw]
  · rw [msdrp_reduce p egid eid startTime endTime now rdbe rsbe hdbe hsbe hdne hsne,
      if_neg hnotcap, if_pos (show _ ∧ _ from ⟨by simp [hnb], hsoft⟩)]
    simp only [hweek]
    norm_num [bufVal, int64IsBlank, DCGM_INT64_BLANK]
    split <;> rfl

/-- Witness for C2 amended: the cap scenario with a successful SBE fetch
(success returned), the all-absent store, the not-watched week fetch on
the soft-limit path (which surfaces the SBE fetch's no-data status), and
the PCIe evaluator on the all-absent store. -/
theorem absence_handling_amended_witness :
    monitorMemSbeDbeRetiredPages (pRetired 30 30 0) .gpu 0 5 0 1000000
      = (.ok, [⟨DCGM_HEALTH_WATCH_MEM, .fail, .retiredPagesLimit, .gpu, 0⟩]) ∧
    monitorMemSbeDbeRetiredPages pOkNoData .gpu 0 5 0 1000000 = (.ok, []) ∧
    monitorMemSbeDbeRetiredPages pSoftWeekNotWatched .gpu 0 5 0 1000000 = (.noData, []) ∧
    monitorPcie pOkNoData .gpu 0 5 0 1000000 = (.ok, []) := by
  refine ⟨(absence_handling_amended (pRetired 30 30 0) .gpu 0 5 0 1000000).2.2.2.2.1
      (.ok ⟨30, 0⟩) (.ok ⟨30, 0⟩) (by decide) (by decide)
      (by rintro c ⟨⟩) (by rintro c ⟨⟩) (by decide),
    (absence_handling_amended pOkNoData .gpu 0 5 0 1000000).2.2.2.2.2.1
      .noData .noData (by decide) (by decide) (by rintro c ⟨⟩) (by rintro c ⟨⟩)
      (by decide) (by decide), ?_,
    (absence_handling_amended pOkNoData .gpu 0 5 0 1000000).1 (Or.inl (by decide))⟩
  have h := (absence_handling_amended pSoftWeekNotWatched .gpu 0 5 0 1000000).2.2.2.2.2.2.1
    (.ok ⟨16, 0⟩) .noData (by decide) (by decide) (by rintro c ⟨⟩) (by rintro c ⟨⟩)
    (by decide) (by decide) (by decide) (by decide)
  simpa using h

/-! ## C6 -/

theorem countUncontained_append (l1 l2 : List Incident) :
    countUncontained (l1 ++ l2) = countUncontained l1 + countUncontained l2 := by
  simp [countUncontained]

theorem countUncontained_volatileDbes (p : Proxy) (egid : EntityGroup) (eid : Nat)
    (s e : Int) : countUncontained (monitorMemVolatileDbes p egid eid s e).2 = 0 := by
  unfold monitorMemVolatileDbes
  cases h : p.getSamples egid eid DCGM_FI_DEV_ECC_DBE_VOL_TOTAL s e .descending <;>
    dsimp only [bufVal, sampleStatus] <;> (try rfl) <;> split_ifs <;> rfl

theorem countUncontained_retiredPending (p : Proxy) (egid : EntityGroup) (eid : Nat)
    (s e : Int) : countUncontained (monitorMemRetiredPending p egid eid s e).2 = 0 := by
  unfold monitorMemRetiredPending
  cases h : p.getSamples egid eid DCGM_FI_DEV_RETIRED_PENDING s e .descending <;>
    dsimp only [bufVal, sampleStatus] <;> (try rfl) <;> split_ifs <;> rfl

theorem countUncontained_retiredPages (p : Proxy) (egid : EntityGroup) (eid : Nat)
    (s e now : Int) :
    countUncontained (monitorMemSbeDbeRetiredPages p egid eid s e now).2 = 0 := by
  unfold monitorMemSbeDbeRetiredPages
  cases h1 : p.getSamples egid eid DCGM_FI_DEV_RETIRED_DBE s e .descending <;>
    cases h2 : p.getSamples egid eid DCGM_FI_DEV_RETIRED_SBE s e .descending <;>
      cases h3 : p.getSamples egid eid DCGM_FI_DEV_RETIRED_DBE 0 (now - 604800000000)
          .descending <;>
        dsimp only [bufVal, sampleStatus] <;> (try rfl) <;> split_ifs <;> rfl

theorem countUncontained_rowRemap (p : Proxy) (egid : EntityGroup) (eid : Nat)
    (s e : Int) : countUncontained (monitorMemRowRemapFailures p egid eid s e).2 = 0 := by
  unfold monitorMemRowRemapFailures
  cases h : p.getSamples egid eid DCGM_FI_DEV_ROW_REMAP_FAILURE s e .descending <;>
    dsimp only [bufVal, sampleStatus] <;> (try rfl) <;> split_ifs <;> rfl

/-- Ingestion only ever grows the uncontained-error set. -/
theorem onFieldValuesUpdate_mono :
    ∀ (batch : List BufferedFv) (st : HWState),
      st.uncontained ⊆ (onFieldValuesUpdate st batch).uncontained := by
  intro batch
  induction batch with
  | nil => intro st; exact fun a ha => ha
  | cons fv rest ih =>
    intro st
    have hstep : st.uncontained ⊆
        (if fv.entityGroupId ≠ .gpu then st
         else if fv.fieldId = DCGM_FI_DEV_XID_ERRORS then processXidFv st fv
         else st).uncontained := by
      split
      · exact fun a ha => ha
      · split
        · unfold processXidFv
          split
          · exact fun a ha => Finset.mem_insert_of_mem ha
          · exact fun a ha => ha
        · exact fun a ha => ha
    exact fun a ha => ih _ (hstep ha)

/-- C6: ingesting the fatal XID for a GPU marks its id; Memory evaluation
of a marked GPU raises exactly one uncontained-error FAIL incident while
an unmarked id raises none; non-GPU entity classes never consult the flag;
the marking is idempotent and no operation of the engine ever removes ids
from the set. -/
theorem uncontained_error_tracking (st : HWState) (p : Proxy) (x y gid systems : Nat)
    (iv : Int) (ka : ℚ) (startTime endTime now : Int) (batch : List BufferedFv) :
    ((⟨.gpu, x, DCGM_FI_DEV_XID_ERRORS, 95⟩ : BufferedFv) ∈ batch →
      x ∈ (onFieldValuesUpdate st batch).uncontained) ∧
    (x ∈ st.uncontained →
      countUncontained (monitorMem st p .gpu x startTime endTime now).2 = 1) ∧
    (y ∉ st.uncontained →
      countUncontained (monitorMem st p .gpu y startTime endTime now).2 = 0) ∧
    (∀ egid, egid ≠ .gpu → monitorUncontainedErrors st egid x = (.ok, [])) ∧
    (processXidFv (processXidFv st ⟨.gpu, x, DCGM_FI_DEV_XID_ERRORS, 95⟩)
        ⟨.gpu, x, DCGM_FI_DEV_XID_ERRORS, 95⟩
      = processXidFv st ⟨.gpu, x, DCGM_FI_DEV_XID_ERRORS, 95⟩) ∧
    (st.uncontained ⊆ (onFieldValuesUpdate st batch).uncontained) ∧
    ((setWatches p st gid systems iv ka).2.uncontained = st.uncontained) ∧
    ((onGroupRemove st gid).uncontained = st.uncontained) := by
  refine ⟨?_, ?_, ?_, ?_, ?_, onFieldValuesUpdate_mono batch st, ?_, rfl⟩
  · intro hmem
    induction batch generalizing st with
    | nil => cases hmem
    | cons fv rest ih =>
      rcases List.mem_cons.mp hmem with heq | hmem'
      · subst heq
        have : x ∈ (processXidFv st ⟨.gpu, x, DCGM_FI_DEV_XID_ERRORS, 95⟩).uncontained := by
          simp [processXidFv]
        exact onFieldValuesUpdate_mono rest _ (by simpa [onFieldValuesUpdate] using this)
      · exact ih _ hmem'
  · intro hx
    simp only [monitorMem, countUncontained_append, countUncontained_volatileDbes,
      countUncontained_retiredPending, countUncontained_retiredPages,
      countUncontained_rowRemap]
    simp [monitorUncontainedErrors, hx, countUncontained]
  · intro hy
    simp only [monitorMem, countUncontained_append, countUncontained_volatileDbes,
      countUncontained_retiredPending, countUncontained_retiredPages,
      countUncontained_rowRemap]
    simp [monitorUncontainedErrors, hy, countUncontained]
  · intro egid hne
    simp [monitorUncontainedErrors, hne]
  · simp [processXidFv, Finset.insert_idem]
  · rcases h : p.getGroupEntities gid with ⟨r, ents⟩
    cases r <;> simp [setWatches, h]

/-- Witness for C6 at a concrete ingested batch and devices 3 / 4. -/
theorem uncontained_error_tracking_witness :
    3 ∈ (onFieldValuesUpdate initState
        [⟨.gpu, 3, DCGM_FI_DEV_XID_ERRORS, 95⟩]).uncontained ∧
    countUncontained (monitorMem
        (onFieldValuesUpdate initState [⟨.gpu, 3, DCGM_FI_DEV_XID_ERRORS, 95⟩])
        pOkNoData .gpu 3 5 0 1000000).2 = 1 ∧
    countUncontained (monitorMem
        (onFieldValuesUpdate initState [⟨.gpu, 3, DCGM_FI_DEV_XID_ERRORS, 95⟩])
        pOkNoData .gpu 4 5 0 1000000).2 = 0 ∧
    monitorUncontainedErrors
        (onFieldValuesUpdate initState [⟨.gpu, 3, DCGM_FI_DEV_XID_ERRORS, 95⟩])
        .nvswitch 3 = (.ok, []) := by
  have h := uncontained_error_tracking
    (onFieldValuesUpdate initState [⟨.gpu, 3, DCGM_FI_DEV_XID_ERRORS, 95⟩])
    pOkNoData 3 4 1 0 1000000 600 5 0 1000000
    [⟨.gpu, 3, DCGM_FI_DEV_XID_ERRORS, 95⟩]
  exact ⟨h.1 (by decide), h.2.1 (by decide), h.2.2.1 (by decide),
    h.2.2.2.1 .nvswitch (by decide)⟩

/-! ## C3 -/

/-- The NVLink counter loop skips a counter whose window-start query has
no data. -/
theorem nvlinkLoop_skip (p : Proxy) (egid : EntityGroup) (eid : Nat)
    (s e now : Int) (f : Nat) (rest : List Nat) (acc : List Incident)
    (h : p.getSamples egid eid f s e .ascending = .noData) :
    monitorNVLinkLoop p egid eid s e now (f :: rest) acc
      = monitorNVLinkLoop p egid eid s e now rest acc := by
  simp [monitorNVLinkLoop, h, sampleStatus]

/-- The NVLink counter loop returns its accumulator unchanged when every
remaining counter has no data. -/
theorem nvlinkLoop_all_noData (p : Proxy) (egid : EntityGroup) (eid : Nat)
    (s e now : Int) :
    ∀ (l : List Nat) (acc : List Incident),
      (∀ f ∈ l, p.getSamples egid eid f s e .ascending = .noData) →
      monitorNVLinkLoop p egid eid s e now l acc = (Option.none, acc) := by
  intro l
  induction l with
  | nil => intro acc _; rfl
  | cons f rest ih =>
    intro acc h
    rw [nvlinkLoop_skip p egid eid s e now f rest acc (h f (List.mem_cons_self _ _))]
    exact ih acc (fun g hg => h g (List.mem_cons_of_mem _ hg))

/-- One active counter of the NVLink loop: both window samples present and
non-blank, so the fixed-limit comparison decides whether an incident is
accumulated. -/
theorem nvlinkLoop_active (p : Proxy) (egid : EntityGroup) (eid : Nat)
    (s e now : Int) (f : Nat) (rest : List Nat) (acc : List Incident) (a b : SampleVal)
    (ha : p.getSamples egid eid f s e .ascending = .ok a)
    (hba : int64IsBlank a.i64 = false)
    (hb : p.getSamples egid eid f s e .descending = .ok b)
    (hbb : int64IsBlank b.i64 = false) :
    monitorNVLinkLoop p egid eid s e now (f :: rest) acc
      = (if (if a.i64 ≥ b.i64 then a.i64 - b.i64 else b.i64 - a.i64)
            ≥ DCGM_LIMIT_MAX_NVLINK_ERROR then
          monitorNVLinkLoop p egid eid s e now rest
            (acc ++ [nvlinkIncident egid eid f
              (if a.i64 ≥ b.i64 then a.i64 - b.i64 else b.i64 - a.i64) s e now])
        else monitorNVLinkLoop p egid eid s e now rest acc) := by
  have hns : a.i64 ≠ DCGM_INT64_NOT_SUPPORTED := by
    simp only [int64IsBlank, decide_eq_false_iff_not, not_le, DCGM_INT64_BLANK] at hba
    simp only [DCGM_INT64_NOT_SUPPORTED, DCGM_INT64_BLANK]
    omega
  simp [monitorNVLinkLoop, ha, hb, sampleStatus, bufVal, hba, hbb, hns]

/-- `MonitorNVLink` with exactly one active counter (the others report no
data) and all links up: the result is success together with the incident
the fixed-limit rule dictates for that counter. -/
theorem monitorNVLink_single_active (p : Proxy) (egid : EntityGroup) (eid : Nat)
    (startTime endTime now : Int) (f : Nat) (a b : SampleVal) (ls : Nat → LinkState)
    (hf : f ∈ nvlinkFieldIds)
    (hothers : ∀ g ∈ nvlinkFieldIds, g ≠ f →
      p.getSamples egid eid g (effStart startTime now) endTime .ascending = .noData)
    (ha : p.getSamples egid eid f (effStart startTime now) endTime .ascending = .ok a)
    (hba : int64IsBlank a.i64 = false)
    (hb : p.getSamples egid eid f (effStart startTime now) endTime .descending = .ok b)
    (hbb : int64IsBlank b.i64 = false)
    (hlinks : p.getNvLinkLinkStatus .gpu eid = (.ok, ls))
    (hup : ∀ i, ls i ≠ .down) :
    monitorNVLink p egid eid startTime endTime now
      = (.ok,
         if (if a.i64 ≥ b.i64 then a.i64 - b.i64 else b.i64 - a.i64)
              ≥ DCGM_LIMIT_MAX_NVLINK_ERROR then
           [nvlinkIncident egid eid f
             (if a.i64 ≥ b.i64 then a.i64 - b.i64 else b.i64 - a.i64)
             (effStart startTime now) endTime now]
         else []) := by
  have hdowns : (List.range DCGM_NVLINK_MAX_LINKS_PER_GPU).filterMap
      (fun i => if ls i = .down then
          some (⟨DCGM_HEALTH_WATCH_NVLINK, .fail, .nvlinkDown i, egid, eid⟩ : Incident)
        else Option.none) = [] := by
    rw [List.filterMap_eq_nil_iff]
    intro i _
    simp [hup i]
  have hloop : monitorNVLinkLoop p egid eid (effStart startTime now) endTime now
      nvlinkFieldIds []
      = (Option.none,
         if (if a.i64 ≥ b.i64 then a.i64 - b.i64 else b.i64 - a.i64)
              ≥ DCGM_LIMIT_MAX_NVLINK_ERROR then
           [nvlinkIncident egid eid f
             (if a.i64 ≥ b.i64 then a.i64 - b.i64 else b.i64 - a.i64)
             (effStart startTime now) endTime now]
         else []) := by
    have h4 : f = DCGM_FI_DEV_NVLINK_CRC_FLIT_ERROR_COUNT_TOTAL ∨
        f = DCGM_FI_DEV_NVLINK_CRC_DATA_ERROR_COUNT_TOTAL ∨
        f = DCGM_FI_DEV_NVLINK_REPLAY_ERROR_COUNT_TOTAL ∨
        f = DCGM_FI_DEV_NVLINK_RECOVERY_ERROR_COUNT_TOTAL := by
      simpa [nvlinkFieldIds] using hf
    rcases h4 with rfl | rfl | rfl | rfl
    · simp only [nvlinkFieldIds]
      rw [nvlinkLoop_active p egid eid _ endTime now _ _ _ a b ha hba hb hbb]
      have hr : ∀ acc, monitorNVLinkLoop p egid eid (effStart startTime now) endTime now
          [DCGM_FI_DEV_NVLINK_CRC_DATA_ERROR_COUNT_TOTAL,
           DCGM_FI_DEV_NVLINK_REPLAY_ERROR_COUNT_TOTAL,
           DCGM_FI_DEV_NVLINK_RECOVERY_ERROR_COUNT_TOTAL] acc = (Option.none, acc) :=
        fun acc => nvlinkLoop_all_noData p egid eid _ endTime now _ acc
          (fun g hg => by fin_cases hg <;> exact hothers _ (by decide) (by decide))
      simp only [hr]
      by_cases hd : (if a.i64 ≥ b.i64 then a.i64 - b.i64 else b.i64 - a.i64)
          ≥ DCGM_LIMIT_MAX_NVLINK_ERROR <;> simp [hd]
    · simp only [nvlinkFieldIds]
      rw [nvlinkLoop_skip p egid eid _ endTime now _ _ _ (hothers _ (by decide) (by decide)),
        nvlinkLoop_active p egid eid _ endTime now _ _ _ a b ha hba hb hbb]
      have hr : ∀ acc, monitorNVLinkLoop p egid eid (effStart startTime now) endTime now
          [DCGM_FI_DEV_NVLINK_REPLAY_ERROR_COUNT_TOTAL,
           DCGM_FI_DEV_NVLINK_RECOVERY_ERROR_COUNT_TOTAL] acc = (Option.none, acc) :=
        fun acc => nvlinkLoop_all_noData p egid eid _ endTime now _ acc
          (fun g hg => by fin_cases hg <;> exact hothers _ (by decide) (by decide))
      simp only [hr]
      by_cases hd : (if a.i64 ≥ b.i64 then a.i64 - b.i64 else b.i64 - a.i64)
          ≥ DCGM_LIMIT_MAX_NVLINK_ERROR <;> simp [hd]
    · simp only [nvlinkFieldIds]
      rw [nvlinkLoop_skip p egid eid _ endTime now _ _ _ (hothers _ (by decide) (by decide)),
        nvlinkLoop_skip p egid eid _ endTime now _ _ _ (hothers _ (by decide) (by decide)),
        nvlinkLoop_active p egid eid _ endTime now _ _ _ a b ha hba hb hbb]
      have hr : ∀ acc, monitorNVLinkLoop p egid eid (effStart startTime now) endTime now
          [DCGM_FI_DEV_NVLINK_RECOVERY_ERROR_COUNT_TOTAL] acc = (Option.none, acc) :=
        fun acc => nvlinkLoop_all_noData p egid eid _ endTime now _ acc
          (fun g hg => by fin_cases hg <;> exact hothers _ (by decide) (by decide))
      simp only [hr]
      by_cases hd : (if a.i64 ≥ b.i64 then a.i64 - b.i64 else b.i64 - a.i64)
          ≥ DCGM_LIMIT_MAX_NVLINK_ERROR <;> simp [hd]
    · simp only [nvlinkFieldIds]
      rw [nvlinkLoop_skip p egid eid _ endTime now _ _ _ (hothers _ (by decide) (by decide)),
        nvlinkLoop_skip p egid eid _ endTime now _ _ _ (hothers _ (by decide) (by decide)),
        nvlinkLoop_skip p egid eid _ endTime now _ _ _ (hothers _ (by decide) (by decide)),
        nvlinkLoop_active p egid eid _ endTime now _ _ _ a b ha hba hb hbb]
      have hr : ∀ acc, monitorNVLinkLoop p egid eid (effStart startTime now) endTime now
          ([] : List Nat) acc = (Option.none, acc) := fun acc => rfl
      simp only [hr]
      by_cases hd : (if a.i64 ≥ b.i64 then a.i64 - b.i64 else b.i64 - a.i64)
          ≥ DCGM_LIMIT_MAX_NVLINK_ERROR <;> simp [hd]
  simp only [monitorNVLink, hloop, hlinks, hdowns]
  simp

/-- C3 counterexample: on a CRC counter whose per-second rate is exactly
the CRC limit (delta 100 over a one-second window), the code raises a FAIL
incident, where the claim promises a WARN for a rate at the limit. -/
theorem nvlink_crc_rate_at_limit_fails :
    monitorNVLink (pNvlink DCGM_FI_DEV_NVLINK_CRC_FLIT_ERROR_COUNT_TOTAL 0 100) .gpu 0
        1000000 2000000 3000000
      = (.ok, [⟨DCGM_HEALTH_WATCH_NVLINK, .fail, .nvlinkCrcErrorThreshold, .gpu, 0⟩]) := by
  have h := monitorNVLink_single_active
    (pNvlink DCGM_FI_DEV_NVLINK_CRC_FLIT_ERROR_COUNT_TOTAL 0 100) .gpu 0 1000000 2000000
    3000000 DCGM_FI_DEV_NVLINK_CRC_FLIT_ERROR_COUNT_TOTAL ⟨0, 0⟩ ⟨100, 0⟩ (fun _ => .up)
    (by decide) (by decide) (by decide) (by decide) (by decide) (by decide) rfl
    (fun _ => by simp)
  rw [h]
  norm_num [nvlinkIncident, crcRatePerSec, effStart, DCGM_LIMIT_MAX_NVLINK_ERROR,
    DCGM_LIMIT_MAX_NVLINK_CRC_ERROR, DCGM_FI_DEV_NVLINK_CRC_FLIT_ERROR_COUNT_TOTAL,
    DCGM_FI_DEV_NVLINK_REPLAY_ERROR_COUNT_TOTAL,
    DCGM_FI_DEV_NVLINK_RECOVERY_ERROR_COUNT_TOTAL]

/-- C3 amended: for a counter whose window delta (both samples present and
non-blank) is at or above the fixed NVLink error limit, a replay or
recovery counter raises a FAIL incident, while a CRC counter is judged by
its per-second rate over the elapsed window (measured to `now` when the
end time is blank): at or above the per-second CRC limit one FAIL, and
strictly below it one WARN with the generic threshold message; a delta
strictly below the fixed limit raises no incident. -/
theorem monitorNVLink_thresholds_amended (p : Proxy) (egid : EntityGroup) (eid : Nat)
    (startTime endTime now : Int) (f : Nat) (a b : SampleVal) (ls : Nat → LinkState)
    (hf : f ∈ nvlinkFieldIds)
    (hothers : ∀ g ∈ nvlinkFieldIds, g ≠ f →
      p.getSamples egid eid g (effStart startTime now) endTime .ascending = .noData)
    (ha : p.getSamples egid eid f (effStart startTime now) endTime .ascending = .ok a)
    (hba : int64IsBlank a.i64 = false)
    (hb : p.getSamples egid eid f (effStart startTime now) endTime .descending = .ok b)
    (hbb : int64IsBlank b.i64 = false)
    (hlinks : p.getNvLinkLinkStatus .gpu eid = (.ok, ls))
    (hup : ∀ i, ls i ≠ .down) :
    (absDelta a.i64 b.i64 < DCGM_LIMIT_MAX_NVLINK_ERROR →
      monitorNVLink p egid eid startTime endTime now = (.ok, [])) ∧
    (absDelta a.i64 b.i64 ≥ DCGM_LIMIT_MAX_NVLINK_ERROR →
      (f = DCGM_FI_DEV_NVLINK_REPLAY_ERROR_COUNT_TOTAL ∨
       f = DCGM_FI_DEV_NVLINK_RECOVERY_ERROR_COUNT_TOTAL) →
      monitorNVLink p egid eid startTime endTime now
        = (.ok, [⟨DCGM_HEALTH_WATCH_NVLINK, .fail, .nvlinkErrorCritical, egid, eid⟩])) ∧
    (absDelta a.i64 b.i64 ≥ DCGM_LIMIT_MAX_NVLINK_ERROR →
      (f = DCGM_FI_DEV_NVLINK_CRC_FLIT_ERROR_COUNT_TOTAL ∨
       f = DCGM_FI_DEV_NVLINK_CRC_DATA_ERROR_COUNT_TOTAL) →
      ((crcRatePerSec (absDelta a.i64 b.i64) (effStart startTime now) endTime now
          ≥ DCGM_LIMIT_MAX_NVLINK_CRC_ERROR →
        monitorNVLink p egid eid startTime endTime now
          = (.ok, [⟨DCGM_HEALTH_WATCH_NVLINK, .fail, .nvlinkCrcErrorThreshold, egid, eid⟩])) ∧
       (crcRatePerSec (absDelta a.i64 b.i64) (effStart startTime now) endTime now
          < DCGM_LIMIT_MAX_NVLINK_CRC_ERROR →
        monitorNVLink p egid eid startTime endTime now
          = (.ok, [⟨DCGM_HEALTH_WATCH_NVLINK, .warn, .nvlinkErrorThreshold, egid, eid⟩])))) := by
  have hbase := monitorNVLink_single_active p egid eid startTime endTime now f a b ls
    hf hothers ha hba hb hbb hlinks hup
  rw [ifGe_sub_eq_abs] at hbase
  rw [show |a.i64 - b.i64| = absDelta a.i64 b.i64 from rfl] at hbase
  refine ⟨fun hlt => ?_, fun hge hcat => ?_, fun hge hcat => ⟨fun hrate => ?_, fun hrate => ?_⟩⟩
  · rw [hbase, if_neg (by omega)]
  · rw [hbase, if_pos hge]
    simp only [nvlinkIncident, if_pos hcat]
  · rw [hbase, if_pos hge]
    have hnotrep : ¬ (f = DCGM_FI_DEV_NVLINK_REPLAY_ERROR_COUNT_TOTAL ∨
        f = DCGM_FI_DEV_NVLINK_RECOVERY_ERROR_COUNT_TOTAL) := by
      rcases hcat with rfl | rfl <;> decide
    simp only [nvlinkIncident, if_neg hnotrep, if_pos hrate]
  · rw [hbase, if_pos hge]
    have hnotrep : ¬ (f = DCGM_FI_DEV_NVLINK_REPLAY_ERROR_COUNT_TOTAL ∨
        f = DCGM_FI_DEV_NVLINK_RECOVERY_ERROR_COUNT_TOTAL) := by
      rcases hcat with rfl | rfl <;> decide
    simp only [nvlinkIncident, if_neg hnotrep, if_neg (not_le.mpr hrate)]

/-- Witness for C3 amended: a replay counter at the limit fails; a CRC
counter at 50/s warns and at 200/s fails (the latter over a blank end time
measured to `now`); a flat counter raises nothing. -/
theorem monitorNVLink_thresholds_amended_witness :
    monitorNVLink (pNvlink DCGM_FI_DEV_NVLINK_REPLAY_ERROR_COUNT_TOTAL 0 1) .gpu 0
        1000000 2000000 3000000
      = (.ok, [⟨DCGM_HEALTH_WATCH_NVLINK, .fail, .nvlinkErrorCritical, .gpu, 0⟩]) ∧
    monitorNVLink (pNvlink DCGM_FI_DEV_NVLINK_CRC_FLIT_ERROR_COUNT_TOTAL 0 50) .gpu 0
        1000000 2000000 3000000
      = (.ok, [⟨DCGM_HEALTH_WATCH_NVLINK, .warn, .nvlinkErrorThreshold, .gpu, 0⟩]) ∧
    monitorNVLink (pNvlink DCGM_FI_DEV_NVLINK_CRC_FLIT_ERROR_COUNT_TOTAL 0 200) .gpu 0
        1000000 0 2000000
      = (.ok, [⟨DCGM_HEALTH_WATCH_NVLINK, .fail, .nvlinkCrcErrorThreshold, .gpu, 0⟩]) ∧
    monitorNVLink (pNvlink DCGM_FI_DEV_NVLINK_CRC_FLIT_ERROR_COUNT_TOTAL 5 5) .gpu 0
        1000000 2000000 3000000 = (.ok, []) :=
  ⟨(monitorNVLink_thresholds_amended
      (pNvlink DCGM_FI_DEV_NVLINK_REPLAY_ERROR_COUNT_TOTAL 0 1) .gpu 0 1000000 2000000
      3000000 DCGM_FI_DEV_NVLINK_REPLAY_ERROR_COUNT_TOTAL ⟨0, 0⟩ ⟨1, 0⟩ (fun _ => .up)
      (by decide) (by decide) (by decide) (by decide) (by decide) (by decide) rfl
      (fun _ => by simp)).2.1 (by decide) (Or.inl rfl),
   ((monitorNVLink_thresholds_amended
      (pNvlink DCGM_FI_DEV_NVLINK_CRC_FLIT_ERROR_COUNT_TOTAL 0 50) .gpu 0 1000000 2000000
      3000000 DCGM_FI_DEV_NVLINK_CRC_FLIT_ERROR_COUNT_TOTAL ⟨0, 0⟩ ⟨50, 0⟩ (fun _ => .up)
      (by decide) (by decide) (by decide) (by decide) (by decide) (by decide) rfl
      (fun _ => by simp)).2.2 (by decide) (Or.inl rfl)).2
    (by norm_num [crcRatePerSec, effStart, absDelta, DCGM_LIMIT_MAX_NVLINK_CRC_ERROR]),
   ((monitorNVLink_thresholds_amended
      (pNvlink DCGM_FI_DEV_NVLINK_CRC_FLIT_ERROR_COUNT_TOTAL 0 200) .gpu 0 1000000 0
      2000000 DCGM_FI_DEV_NVLINK_CRC_FLIT_ERROR_COUNT_TOTAL ⟨0, 0⟩ ⟨200, 0⟩ (fun _ => .up)
      (by decide) (by decide) (by decide) (by decide) (by decide) (by decide) rfl
      (fun _ => by simp)).2.2 (by decide) (Or.inl rfl)).1
    (by norm_num [crcRatePerSec, effStart, absDelta, DCGM_LIMIT_MAX_NVLINK_CRC_ERROR]),
   (monitorNVLink_thresholds_amended
      (pNvlink DCGM_FI_DEV_NVLINK_CRC_FLIT_ERROR_COUNT_TOTAL 5 5) .gpu 0 1000000 2000000
      3000000 DCGM_FI_DEV_NVLINK_CRC_FLIT_ERROR_COUNT_TOTAL ⟨5, 0⟩ ⟨5, 0⟩ (fun _ => .up)
      (by decide) (by decide) (by decide) (by decide) (by decide) (by decide) rfl
      (fun _ => by simp)).1 (by decide)⟩

/-! ## C10 -/

theorem and467 (k m : Nat) (h : k &&& 467 = k) : k &&& (m &&& 467) = k &&& m := by
  rw [Nat.and_comm m 467, ← Nat.and_assoc, h]

theorem firstNonOk_cons (x : dcgmReturn) (l : List dcgmReturn) :
    firstNonOk (x :: l) = if x = .ok then firstNonOk l else x := by
  by_cases h : x = .ok <;> simp [firstNonOk, List.find?, h]

theorem foldl_mwfgCombine_fst (step : Nat → dcgmReturn × List Incident) :
    ∀ (l : List Nat) (acc : dcgmReturn × List Incident),
      (l.foldl (fun a i => mwfgCombine a (step i)) acc).1
        = l.foldl (fun x i => if x = .ok then (step i).1 else x) acc.1 := by
  intro l
  induction l with
  | nil => intro acc; rfl
  | cons i rest ih =>
    intro acc
    rw [List.foldl_cons, List.foldl_cons, ih]
    rfl

theorem foldl_retUpd_eq_firstNonOk (step : Nat → dcgmReturn × List Incident) :
    ∀ (l : List Nat) (a : dcgmReturn),
      l.foldl (fun x i => if x = .ok then (step i).1 else x) a
        = if a = .ok then firstNonOk (l.map (fun i => (step i).1)) else a := by
  intro l
  induction l with
  | nil => intro a; by_cases h : a = .ok <;> simp [h, firstNonOk]
  | cons i rest ih =>
    intro a
    rw [List.foldl_cons, ih]
    by_cases h : a = .ok
    · subst h
      by_cases h2 : (step i).1 = .ok <;>
        simp [h2, firstNonOk_cons, List.map_cons]
    · simp [h]

theorem foldl_combine_congr (s1 s2 : Nat → dcgmReturn × List Incident) :
    ∀ (l : List Nat) (acc : dcgmReturn × List Incident),
      (∀ i ∈ l, s1 i = s2 i) →
      l.foldl (fun a i => mwfgCombine a (s1 i)) acc
        = l.foldl (fun a i => mwfgCombine a (s2 i)) acc := by
  intro l
  induction l with
  | nil => intro acc _; rfl
  | cons i rest ih =>
    intro acc h
    rw [List.foldl_cons, List.foldl_cons, h i (List.mem_cons_self _ _)]
    exact ih _ (fun j hj => h j (List.mem_cons_of_mem _ hj))

/-- The single-device dispatch step depends only on the six version-1
health bits of the mask. -/
theorem mwfgStep_and467 (st : HWState) (p : Proxy) (gpuId : Nat)
    (startTime endTime now : Int) (mask : Nat) (i : Nat) (hi : i < 10) :
    mwfgStep st p gpuId startTime endTime now mask i
      = mwfgStep st p gpuId startTime endTime now (mask &&& 467) i := by
  interval_cases i <;>
    norm_num [mwfgStep, DCGM_HEALTH_WATCH_PCIE, DCGM_HEALTH_WATCH_NVLINK,
      DCGM_HEALTH_WATCH_MEM, DCGM_HEALTH_WATCH_INFOROM, DCGM_HEALTH_WATCH_THERMAL,
      DCGM_HEALTH_WATCH_POWER] <;>
    rw [and467 _ mask (by decide)]

/-- C10: `MonitorWatchesForGpu` walks only the version-1 count of health
bits, so its whole result (status and incidents) is a function of the six
PCIe/NVLink/Memory/Inforom/Thermal/Power bits of the supplied mask — the
NVSwitch fatal and non-fatal bits (and all reserved bits) never trigger an
evaluation — and, for an in-range device id, the returned status is the
first non-success evaluator status in bit order. -/
theorem monitorWatchesForGpu_v1_dispatch (st : HWState) (p : Proxy) (gpuId : Nat)
    (startTime endTime now : Int) (mask : Nat) :
    monitorWatchesForGpu st p gpuId startTime endTime now mask
      = monitorWatchesForGpu st p gpuId startTime endTime now
          (mask &&& (DCGM_HEALTH_WATCH_PCIE ||| DCGM_HEALTH_WATCH_NVLINK |||
            DCGM_HEALTH_WATCH_MEM ||| DCGM_HEALTH_WATCH_INFOROM |||
            DCGM_HEALTH_WATCH_THERMAL ||| DCGM_HEALTH_WATCH_POWER)) ∧
    (gpuId < DCGM_MAX_NUM_DEVICES →
      (monitorWatchesForGpu st p gpuId startTime endTime now mask).1
        = firstNonOk
            [(if DCGM_HEALTH_WATCH_PCIE &&& mask ≠ 0 then
                (monitorPcie p .gpu gpuId startTime endTime now).1 else .ok),
             (if DCGM_HEALTH_WATCH_NVLINK &&& mask ≠ 0 then
                (monitorNVLink p .gpu gpuId startTime endTime now).1 else .ok),
             (if DCGM_HEALTH_WATCH_MEM &&& mask ≠ 0 then
                (monitorMem st p .gpu gpuId startTime endTime now).1 else .ok),
             (if DCGM_HEALTH_WATCH_INFOROM &&& mask ≠ 0 then
                (monitorInforom p .gpu gpuId startTime endTime).1 else .ok),
             (if DCGM_HEALTH_WATCH_THERMAL &&& mask ≠ 0 then
                (monitorThermal p .gpu gpuId startTime endTime now).1 else .ok),
             (if DCGM_HEALTH_WATCH_POWER &&& mask ≠ 0 then
                (monitorPower p .gpu gpuId startTime endTime now).1 else .ok)]) := by
  constructor
  · have hm : (DCGM_HEALTH_WATCH_PCIE ||| DCGM_HEALTH_WATCH_NVLINK |||
        DCGM_HEALTH_WATCH_MEM ||| DCGM_HEALTH_WATCH_INFOROM |||
        DCGM_HEALTH_WATCH_THERMAL ||| DCGM_HEALTH_WATCH_POWER) = 467 := by decide
    rw [hm]
    unfold monitorWatchesForGpu
    by_cases hg : DCGM_MAX_NUM_DEVICES ≤ gpuId
    · rw [if_pos hg, if_pos hg]
    · rw [if_neg hg, if_neg hg]
      exact foldl_combine_congr _ _ _ _
        (fun i hi => mwfgStep_and467 st p gpuId startTime endTime now mask i
          (List.mem_range.mp hi))
  · intro hlt
    unfold monitorWatchesForGpu
    rw [if_neg (by omega)]
    rw [foldl_mwfgCombine_fst, foldl_retUpd_eq_firstNonOk]
    rw [if_pos rfl]
    rw [show List.range DCGM_HEALTH_WATCH_COUNT_V1 = [0, 1, 2, 3, 4, 5, 6, 7, 8, 9] from rfl]
    simp only [List.map_cons, List.map_nil]
    norm_num [mwfgStep, DCGM_HEALTH_WATCH_PCIE, DCGM_HEALTH_WATCH_NVLINK,
      DCGM_HEALTH_WATCH_MEM, DCGM_HEALTH_WATCH_INFOROM, DCGM_HEALTH_WATCH_THERMAL,
      DCGM_HEALTH_WATCH_POWER, apply_ite (@Prod.fst dcgmReturn (List Incident))]
    simp only [firstNonOk_cons]
    simp [firstNonOk]

/-- Witness for C10: setting only the NVSwitch-fatal bit evaluates nothing
for a device, and the first-failure aggregation at a concrete mask. -/
theorem monitorWatchesForGpu_v1_dispatch_witness :
    monitorWatchesForGpu initState pOkNoData 3 5 0 1000000 DCGM_HEALTH_WATCH_NVSWITCH_FATAL
      = monitorWatchesForGpu initState pOkNoData 3 5 0 1000000 0 ∧
    (monitorWatchesForGpu initState pOkNoData 3 5 0 1000000 17).1
      = firstNonOk [(monitorPcie pOkNoData .gpu 3 5 0 1000000).1, .ok,
          (monitorMem initState pOkNoData .gpu 3 5 0 1000000).1, .ok, .ok, .ok] := by
  constructor
  · have h := (monitorWatchesForGpu_v1_dispatch initState pOkNoData 3 5 0 1000000
      DCGM_HEALTH_WATCH_NVSWITCH_FATAL).1
    simpa using h
  · have h := (monitorWatchesForGpu_v1_dispatch initState pOkNoData 3 5 0 1000000 17).2
      (by decide)
    simpa using h

/-! ## C8 -/

/-- C8: every windowed evaluator treats a blank/zero start time exactly as
`now − 60 s` (Inforom and CPU-Power never consult the start time at all,
so the equality holds for them unconditionally), and a blank (zero,
open-ended) end time is never an error: with a sample store reporting no
data anywhere, every evaluator returns success with no incident for every
start, end and `now` — in particular for end times lying after `now`. -/
theorem time_window_defaults (p : Proxy) (st : HWState) (egid : EntityGroup) (eid : Nat)
    (endTime now : Int) (fatal : Bool) :
    (now ≠ 60000000 →
      (monitorPcie p egid eid 0 endTime now
        = monitorPcie p egid eid (now - 60000000) endTime now) ∧
      (monitorMem st p egid eid 0 endTime now
        = monitorMem st p egid eid (now - 60000000) endTime now) ∧
      (monitorThermal p egid eid 0 endTime now
        = monitorThermal p egid eid (now - 60000000) endTime now) ∧
      (monitorPower p egid eid 0 endTime now
        = monitorPower p egid eid (now - 60000000) endTime now) ∧
      (monitorCpuThermal p egid eid 0 endTime now
        = monitorCpuThermal p egid eid (now - 60000000) endTime now) ∧
      (monitorNVLink p egid eid 0 endTime now
        = monitorNVLink p egid eid (now - 60000000) endTime now) ∧
      (monitorNvSwitchErrorCounts fatal p egid eid 0 endTime now
        = monitorNvSwitchErrorCounts fatal p egid eid (now - 60000000) endTime now) ∧
      (∀ s1 s2 : Int, monitorInforom p egid eid s1 endTime
        = monitorInforom p egid eid s2 endTime) ∧
      (∀ s1 s2 : Int, monitorCpuPower p egid eid s1 endTime
        = monitorCpuPower p egid eid s2 endTime)) ∧
    ((∀ (eg : EntityGroup) (i f : Nat) (s e : Int) (o : SampleOrder),
        p.getSamples eg i f s e o = .noData) →
     (∀ (eg : EntityGroup) (i f : Nat), p.getLatestSample eg i f = .noData) →
     (∀ (eg : EntityGroup) (i : Nat), p.getNvLinkLinkStatus eg i = (.ok, fun _ => .up)) →
     eid ∉ st.uncontained →
     ∀ startTime : Int,
      monitorPcie p egid eid startTime endTime now = (.ok, []) ∧
      monitorMem st p egid eid startTime endTime now = (.ok, []) ∧
      monitorInforom p egid eid startTime endTime = (.ok, []) ∧
      monitorThermal p egid eid startTime endTime now = (.ok, []) ∧
      monitorPower p egid eid startTime endTime now = (.ok, []) ∧
      monitorCpuThermal p egid eid startTime endTime now = (.ok, []) ∧
      monitorCpuPower p egid eid startTime endTime = (.ok, []) ∧
      monitorNVLink p egid eid startTime endTime now = (.ok, []) ∧
      monitorNvSwitchErrorCounts fatal p egid eid startTime endTime now = (.ok, [])) := by
  constructor
  · intro hnow
    have heff : effStart 0 now = effStart (now - 60000000) now := by
      unfold effStart
      rw [if_pos rfl, if_neg (by omega)]
    refine ⟨?_, ?_, ?_, ?_, ?_, ?_, ?_, fun s1 s2 => rfl, fun s1 s2 => rfl⟩
    · simp only [monitorPcie]; rw [heff]
    · simp only [monitorMem]; rw [heff]
    · simp only [monitorThermal]; rw [heff]
    · simp only [monitorPower]; rw [heff]
    · simp only [monitorCpuThermal]; rw [heff]
    · simp only [monitorNVLink]; rw [heff]
    · simp only [monitorNvSwitchErrorCounts]; rw [heff]
  · intro hS hL hLnk hmem startTime
    have hnil : ∀ (n : Nat) (g : Nat → Option Incident), (∀ i, g i = Option.none) →
        (List.range n).filterMap g = [] := by
      intro n g hg
      exact List.filterMap_eq_nil_iff.mpr (fun a _ => hg a)
    refine ⟨?_, ?_, ?_, ?_, ?_, ?_, ?_, ?_, ?_⟩
    · simp [monitorPcie, hS]
    · simp [monitorMem, monitorMemVolatileDbes, monitorMemRetiredPending,
        monitorMemSbeDbeRetiredPages, monitorMemRowRemapFailures, monitorUncontainedErrors,
        hS, hmem, bufVal, int64IsBlank, sampleStatus, DCGM_INT64_BLANK,
        DCGM_LIMIT_MAX_RETIRED_PAGES, DCGM_LIMIT_MAX_RETIRED_PAGES_SOFT_LIMIT]
    · simp [monitorInforom, hL]
    · simp [monitorThermal, hS]
    · simp [monitorPower, hS, hL]
    · simp [monitorCpuThermal, hS]
    · simp [monitorCpuPower, hL]
    · rw [monitorNVLink]
      rw [nvlinkLoop_all_noData p egid eid (effStart startTime now) endTime now
        nvlinkFieldIds [] (fun g _ => hS _ _ _ _ _ _)]
      rw [hLnk]
      simp [hnil]
    · rw [monitorNvSwitchErrorCounts]
      cases fatal <;>
        simp [hS, hLnk, nvSwitchFatalFieldIds, nvSwitchNonFatalFieldIds, hnil]

/-- Witness for C8 at the all-no-data proxy and a window whose end lies in
the future of `now`. -/
theorem time_window_defaults_witness :
    (monitorPcie pOkNoData .gpu 0 0 2000000 1000000
      = monitorPcie pOkNoData .gpu 0 (1000000 - 60000000) 2000000 1000000) ∧
    monitorPcie pOkNoData .gpu 0 5 2000000 1000000 = (.ok, []) ∧
    monitorNVLink pOkNoData .gpu 0 5 2000000 1000000 = (.ok, []) ∧
    monitorNvSwitchErrorCounts true pOkNoData .nvswitch 0 5 2000000 1000000 = (.ok, []) := by
  have h1 := (time_window_defaults pOkNoData initState .gpu 0 2000000 1000000 true).1
    (by decide)
  have h2 := (time_window_defaults pOkNoData initState .gpu 0 2000000 1000000 true).2
    (fun _ _ _ _ _ _ => rfl) (fun _ _ _ => rfl) (fun _ _ => rfl) (by decide) 5
  have h3 := (time_window_defaults pOkNoData initState .nvswitch 0 2000000 1000000 true).2
    (fun _ _ _ _ _ _ => rfl) (fun _ _ _ => rfl) (fun _ _ => rfl) (by decide) 5
  exact ⟨h1.1, h2.1, h2.2.2.2.2.2.2.2.1, h3.2.2.2.2.2.2.2.2⟩

end Dcgm
